import Mathlib

/-!
# RooTrails front-end script: the pointer distortion renderer

A shallow embedding of `src/script.js`, class `WaterDistortionEffect`
(lines 1115-1321), the utility `lerp` (line 19) and the fragment shader held in
`fragmentShaderSource` (lines 1169-1215); further the menu toggle `MobileNavigation`
(lines 22-82) and the particle fields `ResponsiveParticleSystem` (lines 84-211) and
`ParticleSystem` (lines 802-886).

Numbers are exact rationals: JavaScript doubles and GLSL floats are read as the
rationals they approximate.  The page (window size, registered listeners, console,
pending animation-frame callbacks) is explicit state; the graphics context is a
trace of the calls made on it.
-/

set_option linter.unusedVariables false

namespace RooTrails

/-! ## Data model -/

/-- Two-component vector: the script's `{ x, y }` objects and GLSL `vec2`. -/
structure Vec2 where
  x : ℚ
  y : ℚ
deriving DecidableEq

/-- GLSL `vec3`. -/
structure Vec3 where
  x : ℚ
  y : ℚ
  z : ℚ
deriving DecidableEq

/-- GLSL `vec4`; for `gl_FragColor` the components are red, green, blue, alpha. -/
structure Vec4 where
  x : ℚ
  y : ℚ
  z : ℚ
  w : ℚ
deriving DecidableEq

/-- Line 19: `const lerp = (start, end, factor) => start + (end - start) * factor`. -/
def lerp (start end_ factor : ℚ) : ℚ := start + (end_ - start) * factor

/-- The browser window: `window.innerWidth`, `window.innerHeight`. -/
structure Window where
  innerWidth : Nat
  innerHeight : Nat
deriving DecidableEq

/-- The drawable surface `#distortion-canvas` with its `width` and `height` attributes. -/
structure Canvas where
  width : Nat
  height : Nat
deriving DecidableEq

/-- Shader kinds: `gl.VERTEX_SHADER`, `gl.FRAGMENT_SHADER`. -/
inductive ShaderType
  | VERTEX_SHADER
  | FRAGMENT_SHADER
deriving DecidableEq

/-- The two source texts assigned in `createShaders`. -/
inductive ShaderSource
  | vertexShaderSource
  | fragmentShaderSource
deriving DecidableEq

/-- Names of the fragment shader's uniforms. -/
inductive UniformName
  | u_resolution
  | u_mouse
  | u_velocity
  | u_time
deriving DecidableEq

/-- Names of the vertex shader's attributes. -/
inductive AttributeName
  | a_position
  | a_texCoord
deriving DecidableEq

/-- Result of `gl.getUniformLocation(program, name)`. -/
structure UniformLocation where
  program : Nat
  name : UniformName
deriving DecidableEq

/-- Result of `gl.getAttribLocation(program, name)`. -/
structure AttribLocation where
  program : Nat
  name : AttributeName
deriving DecidableEq

/-- The calls the script makes on the graphics context, with their arguments.
Object handles (shaders, programs, buffers) are natural numbers. -/
inductive GLCall
  | viewport (x y width height : Nat)
  | createShader (type : ShaderType) (shader : Nat)
  | shaderSource (shader : Nat) (source : ShaderSource)
  | compileShader (shader : Nat)
  | createProgram (program : Nat)
  | attachShader (program shader : Nat)
  | linkProgram (program : Nat)
  | createBuffer (buffer : Nat)
  | bindBuffer (buffer : Nat)
  | bufferData (data : List ℚ)
  | clear
  | enableBlend
  | blendFunc
  | uniform2f (location : UniformLocation) (x y : ℚ)
  | uniform1f (location : UniformLocation) (x : ℚ)
  | enableVertexAttribArray (index : AttribLocation)
  | vertexAttribPointer (index : AttribLocation) (size : Nat)
  | drawArrays (first count : Nat)
deriving DecidableEq

/-- The graphics context `this.gl`: the calls issued so far (oldest first), the next
fresh object handle, and the driver's answers to the `COMPILE_STATUS` and
`LINK_STATUS` queries. -/
structure GLContext where
  calls : List GLCall
  nextHandle : Nat
  compileStatus : ShaderType → ShaderSource → Bool
  linkStatus : Bool

/-- Record one call on the context. -/
def GLContext.call (gl : GLContext) (c : GLCall) : GLContext :=
  { gl with calls := gl.calls ++ [c] }

/-- A `gl.create*()` call: allocates a fresh handle and records the call. -/
def GLContext.create (gl : GLContext) (mk : Nat → GLCall) : Nat × GLContext :=
  (gl.nextHandle,
    { gl with calls := gl.calls ++ [mk gl.nextHandle], nextHandle := gl.nextHandle + 1 })

/-- Console output of the component. -/
inductive LogEntry
  | warn (message : String)
  | error (message : String)
deriving DecidableEq

/-- `this.uniforms` as built by `setupUniforms`. -/
structure Uniforms where
  resolution : UniformLocation
  mouse : UniformLocation
  velocity : UniformLocation
  time : UniformLocation
deriving DecidableEq

/-- `this.attributes` as built by `setupUniforms`. -/
structure Attributes where
  position : AttribLocation
  texCoord : AttribLocation
deriving DecidableEq

/-- The fields of a `WaterDistortionEffect` whose constructor got past both early
returns (lines 1119 and 1123-1126) and ran `init`. `program` is optional because
`render` tests it for truthiness. -/
structure Live where
  canvas : Canvas
  gl : GLContext
  mouse : Vec2
  targetMouse : Vec2
  velocity : Vec2
  time : ℚ
  program : Option Nat
  positionBuffer : Nat
  texCoordBuffer : Nat
  uniforms : Uniforms
  attributes : Attributes

/-- A `WaterDistortionEffect` object, by the path its constructor took:
no canvas element (`this.canvas` falsy, nothing else assigned), a canvas without a
graphics context (`this.gl` falsy, nothing else assigned), or fully initialised. -/
inductive WaterDistortionEffect
  | noCanvas
  | noContext (canvas : Canvas)
  | live (l : Live)

/-- Listeners the component registers: `resize` on `window` (`setupCanvas`) and
`mousemove` on `document` (`bindEvents`). -/
inductive Listener
  | resize
  | mousemove
deriving DecidableEq

/-- The page as far as the component touches it. `frames` counts the callbacks given to
`requestAnimationFrame` that have not run yet. -/
structure Page where
  window : Window
  effect : WaterDistortionEffect
  listeners : List Listener
  console : List LogEntry
  frames : Nat

/-- Identifiers passed to `canvas.getContext`. -/
inductive ContextId
  | webgl
  | experimental_webgl
deriving DecidableEq

/-- What the browser offers the constructor: the element found by
`document.getElementById("distortion-canvas")` and the answer of `canvas.getContext`. -/
structure Platform where
  canvas : Option Canvas
  getContext : ContextId → Option GLContext

/-! ## Accessors used in statements -/

/-- The smoothed pointer position `this.mouse`, when assigned. -/
def WaterDistortionEffect.mouse : WaterDistortionEffect → Option Vec2
  | .live l => some l.mouse
  | _ => none

/-- The target pointer position `this.targetMouse`, when assigned. -/
def WaterDistortionEffect.targetMouse : WaterDistortionEffect → Option Vec2
  | .live l => some l.targetMouse
  | _ => none

/-- The stored `this.velocity`, when assigned. -/
def WaterDistortionEffect.velocity : WaterDistortionEffect → Option Vec2
  | .live l => some l.velocity
  | _ => none

/-- The clock `this.time`, when assigned. -/
def WaterDistortionEffect.time : WaterDistortionEffect → Option ℚ
  | .live l => some l.time
  | _ => none

/-- The surface `this.canvas`, when found. -/
def WaterDistortionEffect.canvas : WaterDistortionEffect → Option Canvas
  | .noCanvas => none
  | .noContext c => some c
  | .live l => some l.canvas

/-- The calls made so far on `this.gl` (none when there is no context). -/
def WaterDistortionEffect.calls : WaterDistortionEffect → List GLCall
  | .live l => l.gl.calls
  | _ => []

/-- The guard of `render` (line 1284) lets the body run: `this.gl` and `this.program`
are both truthy. -/
def WaterDistortionEffect.ready : WaterDistortionEffect → Bool
  | .live l => l.program.isSome
  | _ => false

/-! ## Operations of `WaterDistortionEffect` -/

/-- The closure `resize` of `setupCanvas` (lines 1147-1151), on the two fields it
touches: the canvas takes the window's size and the viewport is set to it. -/
def resize (window : Window) (canvas : Canvas) (gl : GLContext) : Canvas × GLContext :=
  let canvas := { canvas with width := window.innerWidth }
  let canvas := { canvas with height := window.innerHeight }
  (canvas, gl.call (.viewport 0 0 canvas.width canvas.height))

/-- Lines 1146-1155 `setupCanvas`: run `resize` once and register it for `resize`. -/
def setupCanvas (window : Window) (canvas : Canvas) (gl : GLContext)
    (listeners : List Listener) : Canvas × GLContext × List Listener :=
  let (canvas, gl) := resize window canvas gl
  (canvas, gl, listeners ++ [Listener.resize])

/-- Lines 1236-1246 `createShader(type, source)`. -/
def createShader (gl : GLContext) (console : List LogEntry) (type : ShaderType)
    (source : ShaderSource) : Nat × GLContext × List LogEntry :=
  let (shader, gl) := gl.create (.createShader type)
  let gl := gl.call (.shaderSource shader source)
  let gl := gl.call (.compileShader shader)
  let console :=
    if !(gl.compileStatus type source) then
      console ++ [LogEntry.error "Shader compilation error:"]
    else console
  (shader, gl, console)

/-- Lines 1220-1234 `createProgram(vertexSource, fragmentSource)`. -/
def createProgram (gl : GLContext) (console : List LogEntry)
    (vertexSource fragmentSource : ShaderSource) : Nat × GLContext × List LogEntry :=
  let (vertexShader, gl, console) := createShader gl console .VERTEX_SHADER vertexSource
  let (fragmentShader, gl, console) := createShader gl console .FRAGMENT_SHADER fragmentSource
  let (program, gl) := gl.create .createProgram
  let gl := gl.call (.attachShader program vertexShader)
  let gl := gl.call (.attachShader program fragmentShader)
  let gl := gl.call (.linkProgram program)
  let console :=
    if !gl.linkStatus then console ++ [LogEntry.error "Program linking error:"] else console
  (program, gl, console)

/-- Lines 1157-1218 `createShaders`: the value assigned to `this.program`. -/
def createShaders (gl : GLContext) (console : List LogEntry) :
    Nat × GLContext × List LogEntry :=
  createProgram gl console .vertexShaderSource .fragmentShaderSource

/-- Line 1249: the array `positions`. -/
def positions : List ℚ := [-1, -1, 1, -1, -1, 1, -1, 1, 1, -1, 1, 1]

/-- Line 1251: the array `texCoords`. -/
def texCoords : List ℚ := [0, 0, 1, 0, 0, 1, 0, 1, 1, 0, 1, 1]

/-- Lines 1248-1260 `createGeometry`: returns `positionBuffer`, `texCoordBuffer`. -/
def createGeometry (gl : GLContext) : Nat × Nat × GLContext :=
  let (positionBuffer, gl) := gl.create .createBuffer
  let gl := gl.call (.bindBuffer positionBuffer)
  let gl := gl.call (.bufferData positions)
  let (texCoordBuffer, gl) := gl.create .createBuffer
  let gl := gl.call (.bindBuffer texCoordBuffer)
  let gl := gl.call (.bufferData texCoords)
  (positionBuffer, texCoordBuffer, gl)

/-- Lines 1262-1274 `setupUniforms`: the location queries change no state. -/
def setupUniforms (program : Nat) : Uniforms × Attributes :=
  ({ resolution := ⟨program, .u_resolution⟩
     mouse := ⟨program, .u_mouse⟩
     velocity := ⟨program, .u_velocity⟩
     time := ⟨program, .u_time⟩ },
   { position := ⟨program, .a_position⟩
     texCoord := ⟨program, .a_texCoord⟩ })

/-- Lines 1276-1281 `bindEvents`: register the `mousemove` listener. -/
def bindEvents (listeners : List Listener) : List Listener :=
  listeners ++ [Listener.mousemove]

/-- A `mousemove` event as far as the handler reads it. -/
structure MouseEvent where
  clientX : ℚ
  clientY : ℚ
deriving DecidableEq

/-- The `resize` closure run as a listener on the page. -/
def onResize (p : Page) : Page :=
  match p.effect with
  | .live l =>
    let (canvas, gl) := resize p.window l.canvas l.gl
    { p with effect := .live { l with canvas := canvas, gl := gl } }
  | _ => p

/-- Lines 1277-1280: the `mousemove` listener registered by `bindEvents`. -/
def onMouseMove (e : MouseEvent) (p : Page) : Page :=
  match p.effect with
  | .live l =>
    let targetMouse := { l.targetMouse with x := e.clientX }
    let targetMouse := { targetMouse with y := (p.window.innerHeight : ℚ) - e.clientY }
    { p with effect := .live { l with targetMouse := targetMouse } }
  | _ => p

/-- Lines 1283-1320 `render`. -/
def render (p : Page) : Page :=
  match p.effect with
  | .live l =>
    match l.program with
    | none => p
    | some _ =>
      let time := l.time + 0.016
      -- Smooth mouse following
      let mouse : Vec2 :=
        ⟨lerp l.mouse.x l.targetMouse.x 0.1, lerp l.mouse.y l.targetMouse.y 0.1⟩
      -- Calculate velocity
      let velocity : Vec2 := ⟨l.targetMouse.x - mouse.x, l.targetMouse.y - mouse.y⟩
      -- Setup WebGL
      let gl := l.gl.call .clear
      let gl := gl.call .enableBlend
      let gl := gl.call .blendFunc
      -- Set uniforms
      let gl := gl.call (.uniform2f l.uniforms.resolution l.canvas.width l.canvas.height)
      let gl := gl.call (.uniform2f l.uniforms.mouse mouse.x mouse.y)
      let gl := gl.call (.uniform2f l.uniforms.velocity velocity.x velocity.y)
      let gl := gl.call (.uniform1f l.uniforms.time time)
      -- Set attributes
      let gl := gl.call (.bindBuffer l.positionBuffer)
      let gl := gl.call (.enableVertexAttribArray l.attributes.position)
      let gl := gl.call (.vertexAttribPointer l.attributes.position 2)
      let gl := gl.call (.bindBuffer l.texCoordBuffer)
      let gl := gl.call (.enableVertexAttribArray l.attributes.texCoord)
      let gl := gl.call (.vertexAttribPointer l.attributes.texCoord 2)
      -- Draw
      let gl := gl.call (.drawArrays 0 6)
      { p with
        effect := .live { l with time := time, mouse := mouse, velocity := velocity, gl := gl }
        frames := p.frames + 1 }
  | _ => p

/-- Lines 1136-1144 `init`, run on the fields the constructor has just assigned. -/
def init (window : Window) (canvas : Canvas) (gl : GLContext) (mouse targetMouse velocity : Vec2)
    (time : ℚ) : Page :=
  let (canvas, gl, listeners) := setupCanvas window canvas gl []
  let (program, gl, console) := createShaders gl []
  let (positionBuffer, texCoordBuffer, gl) := createGeometry gl
  let (uniforms, attributes) := setupUniforms program
  let listeners := bindEvents listeners
  render
    { window := window
      effect := .live
        { canvas := canvas, gl := gl, mouse := mouse, targetMouse := targetMouse,
          velocity := velocity, time := time, program := some program,
          positionBuffer := positionBuffer, texCoordBuffer := texCoordBuffer,
          uniforms := uniforms, attributes := attributes }
      listeners := listeners
      console := console
      frames := 0 }

/-- Lines 1116-1134: `new WaterDistortionEffect()` in a window of the given size. -/
def construct (P : Platform) (window : Window) : Page :=
  match P.canvas with
  | none => ⟨window, .noCanvas, [], [], 0⟩
  | some canvas =>
    match (P.getContext .webgl).orElse (fun _ => P.getContext .experimental_webgl) with
    | none => ⟨window, .noContext canvas, [], [LogEntry.warn "WebGL not supported"], 0⟩
    | some gl => init window canvas gl ⟨0, 0⟩ ⟨0, 0⟩ ⟨0, 0⟩ 0

/-! ## The page's event loop, as far as it reaches the component -/

/-- What the browser can deliver: the window takes a new size and fires `resize`; the
pointer moves; the display refreshes and runs one pending animation-frame callback. -/
inductive Event
  | resize (innerWidth innerHeight : Nat)
  | mousemove (e : MouseEvent)
  | frame

/-- Run a handler once for every registered listener of the given kind. -/
def dispatch (kind : Listener) (handler : Page → Page) (p : Page) : Page :=
  (p.listeners.filter (fun l => l = kind)).foldl (fun q _ => handler q) p

/-- Deliver one event. -/
def step (p : Page) : Event → Page
  | .resize w h => dispatch .resize onResize { p with window := ⟨w, h⟩ }
  | .mousemove e => dispatch .mousemove (onMouseMove e) p
  | .frame => if p.frames = 0 then p else render { p with frames := p.frames - 1 }

/-- Deliver a sequence of events, first to last. -/
def run (p : Page) (events : List Event) : Page :=
  events.foldl step p

/-! ## The fragment shader (`fragmentShaderSource`, lines 1169-1215) -/

/-- Componentwise `a - b` on `vec2`. -/
def Vec2.sub (a b : Vec2) : Vec2 := ⟨a.x - b.x, a.y - b.y⟩

/-- Componentwise `a / b` on `vec2`. -/
def Vec2.div (a b : Vec2) : Vec2 := ⟨a.x / b.x, a.y / b.y⟩

/-- Scaling `v * s` of a `vec3` by a float. -/
def Vec3.scale (v : Vec3) (s : ℚ) : Vec3 := ⟨v.x * s, v.y * s, v.z * s⟩

/-- The GLSL built-ins the shader calls whose results are not rational functions of
their arguments. The shader is verified for every implementation of them. -/
structure Builtins where
  distance : Vec2 → Vec2 → ℚ
  normalize : Vec2 → Vec2
  sin : ℚ → ℚ

/-- GLSL `clamp(x, minVal, maxVal) = min(max(x, minVal), maxVal)`. -/
def clamp (x minVal maxVal : ℚ) : ℚ := min (max x minVal) maxVal

/-- GLSL `smoothstep(edge0, edge1, x)`:
`t = clamp((x - edge0) / (edge1 - edge0), 0.0, 1.0); return t * t * (3.0 - 2.0 * t);`. -/
def smoothstep (edge0 edge1 x : ℚ) : ℚ :=
  let t := clamp ((x - edge0) / (edge1 - edge0)) 0.0 1.0
  t * t * (3.0 - 2.0 * t)

/-- Lines 1196-1214: `void main()` of the fragment shader; the result is `gl_FragColor`. -/
def fragmentShaderSource.main (B : Builtins) (gl_FragCoord u_resolution u_mouse u_velocity : Vec2)
    (u_time : ℚ) : Vec4 :=
  let uv := gl_FragCoord.div u_resolution
  let mouse := u_mouse.div u_resolution
  let dist := B.distance uv mouse
  let radius : ℚ := 0.15
  if dist < radius then
    let factor := smoothstep radius 0.0 dist
    let direction := B.normalize (uv.sub mouse)
    let ripple := B.sin (dist * 30.0 - u_time * 8.0) * 0.02 * factor
    let color := (Vec3.mk 0.5 0.8 1.0).scale factor |>.scale 0.3
    ⟨color.x, color.y, color.z, factor * 0.5⟩
  else
    ⟨0.0, 0.0, 0.0, 0.0⟩

/-- The shader's `dist`: distance between the fragment and the mouse after both are
divided by the resolution (lines 1197-1200). -/
def fragmentShaderSource.dist (B : Builtins) (gl_FragCoord u_resolution u_mouse : Vec2) : ℚ :=
  B.distance (gl_FragCoord.div u_resolution) (u_mouse.div u_resolution)

/-- Square root of a rational, exact when numerator times denominator is a perfect
square and rounded down to a multiple of `1 / den` otherwise. -/
def sqrtQ (q : ℚ) : ℚ := (Nat.sqrt (q.num.toNat * q.den) : ℚ) / q.den

/-- One implementation of the built-ins, used to run the shader on concrete inputs:
Euclidean distance through `sqrtQ`, `normalize` as division by the length, and `sin` by
its cubic Taylor polynomial. -/
def sampleBuiltins : Builtins where
  distance a b := sqrtQ ((a.x - b.x) * (a.x - b.x) + (a.y - b.y) * (a.y - b.y))
  normalize v := ⟨v.x / sqrtQ (v.x * v.x + v.y * v.y), v.y / sqrtQ (v.x * v.x + v.y * v.y)⟩
  sin x := x - x * x * x / 6

/-! ## Sample inputs -/

/-- A fresh graphics context whose driver compiles and links everything. -/
def sampleContext : GLContext := ⟨[], 0, fun _ _ => true, true⟩

/-- A browser with the canvas element (default size 300 x 150) and WebGL support. -/
def samplePlatform : Platform := ⟨some ⟨300, 150⟩, fun _ => some sampleContext⟩

/-- A browser with the canvas element but no graphics context of either kind. -/
def noWebGLPlatform : Platform := ⟨some ⟨300, 150⟩, fun _ => none⟩

/-- An initialised component on an 800 x 600 surface, smoothed position `(0, 0)`,
target `(400, 300)`, program handle 2. -/
def sampleLive : Live :=
  { canvas := ⟨800, 600⟩, gl := sampleContext, mouse := ⟨0, 0⟩, targetMouse := ⟨400, 300⟩,
    velocity := ⟨0, 0⟩, time := 0, program := some 2, positionBuffer := 3, texCoordBuffer := 4,
    uniforms := (setupUniforms 2).1, attributes := (setupUniforms 2).2 }

/-- A page holding `sampleLive` in an 800 x 600 window. -/
def samplePage : Page := ⟨⟨800, 600⟩, .live sampleLive, [.resize, .mousemove], [], 1⟩

/-! ## Invariant of the pages the constructor and the event loop produce -/

/-- An initialised component has its surface at the window's size, both listeners
registered once, a program, and one frame pending; an inert one has no listener and no
frame pending. -/
def Page.Wired (p : Page) : Prop :=
  match p.effect with
  | .live l =>
    l.canvas = ⟨p.window.innerWidth, p.window.innerHeight⟩
      ∧ p.listeners = [.resize, .mousemove] ∧ l.program.isSome = true ∧ p.frames = 1
  | _ => p.listeners = [] ∧ p.frames = 0

/-! ## Observations on traces and event sequences -/

/-- The values uploaded to the `u_time` uniform by the given calls, oldest first. -/
def timeUploads (calls : List GLCall) : List ℚ :=
  calls.filterMap fun c =>
    match c with
    | .uniform1f location x => if location.name = .u_time then some x else none
    | _ => none

/-- Whether an event is a display refresh. -/
def Event.isFrame : Event → Bool
  | .frame => true
  | _ => false

/-- The calls one `render` body issues from the state `l` (lines 1297-1317), in order;
`render_of_ready` shows that `render` appends exactly these. -/
def renderCalls (l : Live) : List GLCall :=
  [.clear, .enableBlend, .blendFunc,
   .uniform2f l.uniforms.resolution l.canvas.width l.canvas.height,
   .uniform2f l.uniforms.mouse (lerp l.mouse.x l.targetMouse.x 0.1)
     (lerp l.mouse.y l.targetMouse.y 0.1),
   .uniform2f l.uniforms.velocity
     (l.targetMouse.x - lerp l.mouse.x l.targetMouse.x 0.1)
     (l.targetMouse.y - lerp l.mouse.y l.targetMouse.y 0.1),
   .uniform1f l.uniforms.time (l.time + 0.016),
   .bindBuffer l.positionBuffer,
   .enableVertexAttribArray l.attributes.position,
   .vertexAttribPointer l.attributes.position 2,
   .bindBuffer l.texCoordBuffer,
   .enableVertexAttribArray l.attributes.texCoord,
   .vertexAttribPointer l.attributes.texCoord 2,
   .drawArrays 0 6]

/-- A fresh graphics context whose driver fails every compile and the link. -/
def failingContext : GLContext := ⟨[], 0, fun _ _ => false, false⟩

/-- A browser with the canvas element and WebGL support, on the failing driver. -/
def failingPlatform : Platform := ⟨some ⟨300, 150⟩, fun _ => some failingContext⟩

/-! ## Geometry read off the vertex buffers -/

/-- The two-component vertices of a tightly packed buffer, as read through
`vertexAttribPointer(location, 2, gl.FLOAT, false, 0, 0)`. -/
def vertices : List ℚ → List Vec2
  | x :: y :: rest => ⟨x, y⟩ :: vertices rest
  | _ => []

/-- The primitives of `drawArrays(gl.TRIANGLES, ...)`: consecutive vertex triples. -/
def triangles : List Vec2 → List (Vec2 × Vec2 × Vec2)
  | a :: b :: c :: rest => (a, b, c) :: triangles rest
  | _ => []

/-- The point `p` lies in the closed triangle with corners `a`, `b`, `c`. -/
def inTriangle (a b c p : Vec2) : Prop :=
  ∃ u v w : ℚ, 0 ≤ u ∧ 0 ≤ v ∧ 0 ≤ w ∧ u + v + w = 1
    ∧ p.x = u * a.x + v * b.x + w * c.x ∧ p.y = u * a.y + v * b.y + w * c.y

/-- The draw calls among the given calls. -/
def drawCalls (calls : List GLCall) : List GLCall :=
  calls.filter fun c =>
    match c with
    | .drawArrays _ _ => true
    | _ => false

/-! ## `MobileNavigation` (lines 22-82) -/

/-- `classList.add(token)`: the token is appended unless already present. -/
def classListAdd (classList : List String) (token : String) : List String :=
  if token ∈ classList then classList else classList ++ [token]

/-- `classList.remove(token)`. -/
def classListRemove (classList : List String) (token : String) : List String :=
  classList.filter (fun c => c ≠ token)

/-- A `MobileNavigation` whose two elements exist (only then does `init` register the
listeners that call its methods), with the parts of the document it writes: the class
lists of `#mobile-menu-btn` and `#nav-links` and `document.body.style.overflow`. -/
structure MobileNavigation where
  mobileMenuBtn : List String
  navLinks : List String
  overflow : String
  isOpen : Bool
deriving DecidableEq

/-- Lines 23-30: the constructor, on the document as it finds it. -/
def MobileNavigation.construct (mobileMenuBtn navLinks : List String) (overflow : String) :
    MobileNavigation :=
  { mobileMenuBtn := mobileMenuBtn, navLinks := navLinks, overflow := overflow, isOpen := false }

/-- Lines 69-74 `openMenu`. -/
def MobileNavigation.openMenu (s : MobileNavigation) : MobileNavigation :=
  let s := { s with isOpen := true }
  let s := { s with mobileMenuBtn := classListAdd s.mobileMenuBtn "active" }
  let s := { s with navLinks := classListAdd s.navLinks "active" }
  { s with overflow := "hidden" }

/-- Lines 76-81 `closeMenu`. -/
def MobileNavigation.closeMenu (s : MobileNavigation) : MobileNavigation :=
  let s := { s with isOpen := false }
  let s := { s with mobileMenuBtn := classListRemove s.mobileMenuBtn "active" }
  let s := { s with navLinks := classListRemove s.navLinks "active" }
  { s with overflow := "auto" }

/-- Lines 61-67 `toggleMenu`. -/
def MobileNavigation.toggleMenu (s : MobileNavigation) : MobileNavigation :=
  if s.isOpen then s.closeMenu else s.openMenu

/-- The three methods of `MobileNavigation` that change its state. -/
inductive MenuOp
  | toggleMenu
  | openMenu
  | closeMenu
deriving DecidableEq

/-- Run one method. -/
def MenuOp.apply : MenuOp → MobileNavigation → MobileNavigation
  | .toggleMenu, s => s.toggleMenu
  | .openMenu, s => s.openMenu
  | .closeMenu, s => s.closeMenu

/-! ## `ResponsiveParticleSystem` (lines 84-211) and `ParticleSystem` (lines 802-886) -/

/-- The parts of JavaScript's `Math` the particle code calls: `random k` is the value of
the `k`-th call of `Math.random()` on the page, counted from 0. -/
structure JSMath where
  random : Nat → ℚ
  cos : ℚ → ℚ
  sin : ℚ → ℚ
  PI : ℚ

/-- A particle element: `id` stands for the identity of the `div`; `left` and `top` are
`style.left` and `style.top` in pixels, `opacity` is `style.opacity` once `animate` has
written it, and `tween` is the opacity handed to `gsap.to` at creation. -/
structure Particle where
  id : Nat
  left : ℚ
  top : ℚ
  velocity : Vec2
  life : ℚ
  maxLife : ℚ
  opacity : Option ℚ
  tween : ℚ
deriving DecidableEq

/-- A particle system on its page: the fields `particles`, `particleCount` and `isTouch`
of the object, the children of `#particles-container` (by id), the window, and the page's
counters: calls of `Math.random()` so far, elements created so far, pending
animation-frame callbacks of `animate`, and registered `resize` listeners. -/
structure ParticlePage where
  window : Window
  container : List Nat
  particles : List Particle
  particleCount : Int
  isTouch : Bool
  draws : Nat
  nextId : Nat
  frames : Nat
  listeners : Nat

/-- Lines 94-100 `getParticleCount`. -/
def getParticleCount (window : Window) : Int :=
  let width := window.innerWidth
  if width < 480 then 15
  else if width < 768 then 25
  else if width < 1024 then 35
  else 50

/-- Lines 144-177 (and 819-852) `createParticle`. -/
def createParticle (M : JSMath) (p : ParticlePage) : ParticlePage :=
  -- Random initial position
  let x := M.random p.draws * p.window.innerWidth
  let y := M.random (p.draws + 1) * p.window.innerHeight
  -- Random properties
  let speed := M.random (p.draws + 2) * 2 + 0.5
  let angle := M.random (p.draws + 3) * M.PI * 2
  let life := M.random (p.draws + 4) * 3 + 2
  let particle : Particle :=
    { id := p.nextId, left := x, top := y
      velocity := ⟨M.cos angle * speed, M.sin angle * speed⟩
      life := life, maxLife := life, opacity := none
      tween := M.random (p.draws + 5) * 0.6 + 0.2 }
  { p with
    container := p.container ++ [particle.id]
    particles := p.particles ++ [particle]
    draws := p.draws + 6
    nextId := p.nextId + 1 }

/-- Lines 181-206 (and 856-881): the callback `animate` passes to `forEach`, called
with the element `particle` found at position `index`. -/
def animateParticle (M : JSMath) (particle : Particle) (index : Nat) (p : ParticlePage) :
    ParticlePage :=
  -- Update position
  let currentX := particle.left
  let currentY := particle.top
  let particle := { particle with left := currentX + particle.velocity.x }
  let particle := { particle with top := currentY + particle.velocity.y }
  -- Update life
  let particle := { particle with life := particle.life - 0.016 }
  -- Update opacity based on life
  let opacity := particle.life / particle.maxLife
  let particle := { particle with opacity := some (opacity * 0.6) }
  let p := { p with particles := p.particles.set index particle }
  -- Remove and recreate if dead or out of bounds
  if particle.life ≤ 0 ∨ currentX < -10 ∨ currentX > (p.window.innerWidth : ℚ) + 10
      ∨ currentY < -10 ∨ currentY > (p.window.innerHeight : ℚ) + 10 then
    let p := { p with container := p.container.erase particle.id }
    let p := { p with particles := p.particles.eraseIdx index }
    createParticle M p
  else p

/-- `Array.prototype.forEach` with the callback of `animate`: the length is read once
before the loop, and each of the `remaining` positions from `index` on is visited in
turn, the callback receiving whatever element the array holds there at that moment. -/
def forEachParticle (M : JSMath) : (remaining index : Nat) → ParticlePage → ParticlePage
  | 0, _, p => p
  | remaining + 1, index, p =>
    match p.particles[index]? with
    | none => forEachParticle M remaining (index + 1) p
    | some particle => forEachParticle M remaining (index + 1) (animateParticle M particle index p)

/-- Lines 179-210 `ResponsiveParticleSystem.animate`. -/
def ResponsiveParticleSystem.animate (M : JSMath) (p : ParticlePage) : ParticlePage :=
  let p := forEachParticle M p.particles.length 0 p
  { p with frames := p.frames + 1 }

/-- Lines 854-885 `ParticleSystem.animate`: the same text as lines 179-210. -/
def ParticleSystem.animate (M : JSMath) (p : ParticlePage) : ParticlePage :=
  let p := forEachParticle M p.particles.length 0 p
  { p with frames := p.frames + 1 }

/-- Lines 134-137: one round of the removal loop, `pop()` and `remove()` if an element
came out. -/
def popParticle (p : ParticlePage) : ParticlePage :=
  match p.particles.getLast? with
  | none => p
  | some particle =>
    { p with particles := p.particles.dropLast, container := p.container.erase particle.id }

/-- Lines 123-142 `updateParticleCount(newCount)`. -/
def updateParticleCount (M : JSMath) (newCount : Int) (p : ParticlePage) : ParticlePage :=
  let diff := newCount - p.particleCount
  let p :=
    if diff > 0 then
      -- Add particles
      (createParticle M)^[diff.toNat] p
    else if diff < 0 then
      -- Remove particles
      popParticle^[diff.natAbs] p
    else p
  { p with particleCount := newCount }

/-- Lines 115-120: the `resize` listener registered by `init`. -/
def onResizeParticles (M : JSMath) (p : ParticlePage) : ParticlePage :=
  let newCount := getParticleCount p.window
  if newCount ≠ p.particleCount then updateParticleCount M newCount p else p

/-- Lines 102-121 `ResponsiveParticleSystem.init`. -/
def ResponsiveParticleSystem.init (M : JSMath) (p : ParticlePage) : ParticlePage :=
  -- Disable particles on touch devices for better performance
  if p.isTouch = true ∧ p.window.innerWidth < 768 then p
  else
    let p := (createParticle M)^[p.particleCount.toNat] p
    let p := ResponsiveParticleSystem.animate M p
    { p with listeners := p.listeners + 1 }

/-- Lines 85-92: `new ResponsiveParticleSystem()` in the given window, on a device that
has (`isTouch`) or lacks `ontouchstart`. -/
def ResponsiveParticleSystem.construct (M : JSMath) (window : Window) (isTouch : Bool) :
    ParticlePage :=
  ResponsiveParticleSystem.init M
    { window := window, container := [], particles := [],
      particleCount := getParticleCount window, isTouch := isTouch,
      draws := 0, nextId := 0, frames := 0, listeners := 0 }

/-- A `Math` whose `random()` always answers `1/2`, with `cos = 1`, `sin = 0` and
`PI = 3`. -/
def sampleMath : JSMath := ⟨fun _ => 1 / 2, fun _ => 1, fun _ => 0, 3⟩

/-- A particle about to die: life `0.01`, at `(100, 100)`, moving by `(1, 1)` per frame. -/
def dyingParticle (id : Nat) : Particle :=
  { id := id, left := 100, top := 100, velocity := ⟨1, 1⟩, life := 0.01, maxLife := 3,
    opacity := none, tween := 0.5 }

/-- An 800 x 600 page whose system holds two dying particles, ids 0 and 1. -/
def twoDyingPage : ParticlePage :=
  { window := ⟨800, 600⟩, container := [0, 1], particles := [dyingParticle 0, dyingParticle 1],
    particleCount := 2, isTouch := false, draws := 12, nextId := 2, frames := 0, listeners := 1 }

/-- The data handed to `bufferData` by the given calls, oldest first. -/
def bufferUploads (calls : List GLCall) : List (List ℚ) :=
  calls.filterMap fun c =>
    match c with
    | .bufferData data => some data
    | _ => none

/-! ## Properties -/

/-- What one `render` call does when its guard passes. -/
theorem render_of_ready (p : Page) (l : Live) (h : p.effect = .live l)
    (hp : l.program.isSome = true) :
    render p =
      { p with
        effect := .live
          { l with
            time := l.time + 0.016
            mouse := ⟨lerp l.mouse.x l.targetMouse.x 0.1, lerp l.mouse.y l.targetMouse.y 0.1⟩
            velocity :=
              ⟨l.targetMouse.x - lerp l.mouse.x l.targetMouse.x 0.1,
               l.targetMouse.y - lerp l.mouse.y l.targetMouse.y 0.1⟩
            gl := { l.gl with calls := l.gl.calls ++ renderCalls l } }
        frames := p.frames + 1 } := by
  obtain ⟨h', hh⟩ := Option.isSome_iff_exists.mp hp
  simp [render, h, hh, GLContext.call, renderCalls]

/-- What one `render` call does when its guard fails. -/
theorem render_of_not_ready (p : Page) (h : p.effect.ready = false) : render p = p := by
  cases hE : p.effect with
  | noCanvas => simp [render, hE]
  | noContext c => simp [render, hE]
  | live l =>
    cases hP : l.program with
    | none => simp [render, hE, hP]
    | some x => simp [WaterDistortionEffect.ready, hE, hP] at h

/-- C1: one `render` step sets the smoothed position to `lerp(p, t, 0.1)` componentwise,
which is `p + (t - p) * 0.1 = p * 0.9 + t * 0.1`; from `p = (0, 0)` with
`t = (400, 300)` the new smoothed position is `(40, 30)`. -/
theorem render_smoothed (p : Page) (l : Live) (h : p.effect = .live l)
    (hp : l.program.isSome = true) :
    (render p).effect.mouse =
        some ⟨l.mouse.x * 0.9 + l.targetMouse.x * 0.1, l.mouse.y * 0.9 + l.targetMouse.y * 0.1⟩
    ∧ (render p).effect.mouse =
        some ⟨lerp l.mouse.x l.targetMouse.x 0.1, lerp l.mouse.y l.targetMouse.y 0.1⟩
    ∧ (∀ a b : ℚ, lerp a b 0.1 = a + (b - a) * 0.1 ∧ lerp a b 0.1 = 0.9 * a + 0.1 * b)
    ∧ (l.mouse = ⟨0, 0⟩ → l.targetMouse = ⟨400, 300⟩ → (render p).effect.mouse = some ⟨40, 30⟩) := by
  rw [render_of_ready p l h hp]
  refine ⟨?_, rfl, ?_, ?_⟩
  · simp only [WaterDistortionEffect.mouse, lerp, Option.some.injEq, Vec2.mk.injEq]
    constructor <;> ring
  · intro a b
    simp only [lerp]
    constructor
    · trivial
    · ring
  · intro hm ht
    simp only [WaterDistortionEffect.mouse, lerp, hm, ht, Option.some.injEq, Vec2.mk.injEq]
    constructor <;> norm_num

/-- C1 at the sample page: smoothed `(0, 0)`, target `(400, 300)`. -/
theorem render_smoothed_witness :
    (render samplePage).effect.mouse = some ⟨40, 30⟩ :=
  (render_smoothed samplePage sampleLive rfl rfl).2.2.2 rfl rfl

/-- C2: after one `render` step that passes the guard, the stored velocity is
`target - smoothed_new` componentwise, with `smoothed_new` the smoothed position written by
the same step; it is `(target - smoothed_old) * 0.9`, so it differs from
`target - smoothed_old` in every component where target and old smoothed position differ. -/
theorem render_velocity (p : Page) (l : Live) (h : p.effect = .live l)
    (hp : l.program.isSome = true) :
    ∃ smoothedNew v : Vec2,
      (render p).effect.mouse = some smoothedNew
      ∧ (render p).effect.targetMouse = some l.targetMouse
      ∧ (render p).effect.velocity = some v
      ∧ v.x = l.targetMouse.x - smoothedNew.x
      ∧ v.y = l.targetMouse.y - smoothedNew.y
      ∧ v.x = (l.targetMouse.x - l.mouse.x) * 0.9
      ∧ v.y = (l.targetMouse.y - l.mouse.y) * 0.9
      ∧ (l.targetMouse.x ≠ l.mouse.x → v.x ≠ l.targetMouse.x - l.mouse.x)
      ∧ (l.targetMouse.y ≠ l.mouse.y → v.y ≠ l.targetMouse.y - l.mouse.y) := by
  rw [render_of_ready p l h hp]
  refine ⟨_, _, rfl, rfl, rfl, rfl, rfl, ?_, ?_, ?_, ?_⟩
  · simp only [lerp]; ring
  · simp only [lerp]; ring
  · intro hne heq
    simp only [lerp] at heq
    apply hne
    linarith
  · intro hne heq
    simp only [lerp] at heq
    apply hne
    linarith

/-- C2 at the sample page: the velocity stored is `(360, 270) = (400, 300) - (40, 30)`. -/
theorem render_velocity_witness :
    ∃ smoothedNew v : Vec2,
      (render samplePage).effect.mouse = some smoothedNew
      ∧ (render samplePage).effect.targetMouse = some ⟨400, 300⟩
      ∧ (render samplePage).effect.velocity = some v
      ∧ v.x = 400 - smoothedNew.x
      ∧ v.y = 300 - smoothedNew.y
      ∧ v.x = (400 - 0) * 0.9
      ∧ v.y = (300 - 0) * 0.9
      ∧ ((400 : ℚ) ≠ 0 → v.x ≠ 400 - 0)
      ∧ ((300 : ℚ) ≠ 0 → v.y ≠ 300 - 0) :=
  render_velocity samplePage sampleLive rfl rfl

/-- The constructor, when the browser offers the canvas and a context. -/
theorem construct_of_context (P : Platform) (w : Window) (c : Canvas) (gl : GLContext)
    (hc : P.canvas = some c)
    (hg : (P.getContext .webgl).orElse (fun _ => P.getContext .experimental_webgl) = some gl) :
    construct P w = init w c gl ⟨0, 0⟩ ⟨0, 0⟩ ⟨0, 0⟩ 0 := by
  simp [construct, hc, hg]

/-- The page built by `init` is wired. -/
theorem init_wired (w : Window) (c : Canvas) (gl : GLContext) (m t v : Vec2) (time : ℚ) :
    (init w c gl m t v time).Wired := by
  simp [init, setupCanvas, resize, createShaders, createProgram, createShader, createGeometry,
    setupUniforms, bindEvents, render, GLContext.create, GLContext.call, Page.Wired]

/-- The page built by the constructor is wired. -/
theorem construct_wired (P : Platform) (w : Window) : (construct P w).Wired := by
  unfold construct
  cases hc : P.canvas with
  | none => simp [Page.Wired]
  | some c =>
    cases hg : (P.getContext .webgl).orElse (fun _ => P.getContext .experimental_webgl) with
    | none => simp [Page.Wired]
    | some gl => simpa using init_wired w c gl _ _ _ _

/-- Every event keeps the page wired. -/
theorem step_wired (p : Page) (e : Event) (h : p.Wired) : (step p e).Wired := by
  cases hE : p.effect with
  | noCanvas =>
    simp only [Page.Wired, hE] at h
    cases e <;> simp [step, dispatch, h.1, h.2, Page.Wired, hE]
  | noContext c =>
    simp only [Page.Wired, hE] at h
    cases e <;> simp [step, dispatch, h.1, h.2, Page.Wired, hE]
  | live l =>
    simp only [Page.Wired, hE] at h
    obtain ⟨h1, h2, h3, h4⟩ := h
    obtain ⟨x, hx⟩ := Option.isSome_iff_exists.mp h3
    cases e with
    | resize a b =>
      simp [step, dispatch, h2, onResize, hE, resize, GLContext.call, Page.Wired, h3, h4]
    | mousemove e =>
      simp [step, dispatch, h2, onMouseMove, hE, Page.Wired, h1, h3, h4]
    | frame =>
      simp [step, h4, render, hE, hx, Page.Wired, h1, h2]

/-- Every run of events from a wired page ends in a wired page. -/
theorem run_wired (events : List Event) (p : Page) (h : p.Wired) : (run p events).Wired := by
  induction events generalizing p with
  | nil => exact h
  | cons e es ih => exact ih (step p e) (step_wired p e h)

/-- C3: on every page reached from the constructor through any events, once the
component's `mousemove` listener is registered, a pointer move `(x, y)` stores
`target = (x, H - y)` with `H` the height of the canvas. -/
theorem mousemove_target (P : Platform) (w : Window) (events : List Event) (e : MouseEvent)
    (h : Listener.mousemove ∈ (run (construct P w) events).listeners) :
    ∃ c : Canvas,
      (run (construct P w) events).effect.canvas = some c
      ∧ (step (run (construct P w) events) (.mousemove e)).effect.targetMouse =
          some ⟨e.clientX, (c.height : ℚ) - e.clientY⟩
      ∧ (onMouseMove e (run (construct P w) events)).effect.targetMouse =
          some ⟨e.clientX, (c.height : ℚ) - e.clientY⟩ := by
  have hw := run_wired events (construct P w) (construct_wired P w)
  generalize run (construct P w) events = q at h hw
  cases hE : q.effect with
  | noCanvas => simp [Page.Wired, hE] at hw; simp [hw.1] at h
  | noContext c => simp [Page.Wired, hE] at hw; simp [hw.1] at h
  | live l =>
    simp only [Page.Wired, hE] at hw
    obtain ⟨h1, h2, h3, h4⟩ := hw
    refine ⟨l.canvas, rfl, ?_, ?_⟩
    · simp [step, dispatch, h2, onMouseMove, hE, WaterDistortionEffect.targetMouse, h1]
    · simp [onMouseMove, hE, WaterDistortionEffect.targetMouse, h1]

/-- C3 on an 800 x 600 surface: the pointer at `(400, 300)` stores the target `(400, 300)`. -/
theorem mousemove_target_witness :
    (step (construct samplePlatform ⟨800, 600⟩) (.mousemove ⟨400, 300⟩)).effect.targetMouse =
      some ⟨400, 300⟩ := by
  obtain ⟨c, hc, h1, -⟩ :=
    mousemove_target samplePlatform ⟨800, 600⟩ [] ⟨400, 300⟩ (by decide)
  have hc' : (run (construct samplePlatform ⟨800, 600⟩) []).effect.canvas = some ⟨800, 600⟩ := rfl
  rw [hc'] at hc
  cases hc
  simp only [run, List.foldl_nil] at h1
  rw [h1]
  norm_num

/-! ### The fragment shader -/

/-- The value of `smoothstep(0.15, 0.0, dist)` for `dist` below the radius and not
negative: the clamp is inactive. -/
theorem smoothstep_inside (d : ℚ) (h0 : 0 ≤ d) (h1 : d < 0.15) :
    smoothstep 0.15 0.0 d = (1 - d / 0.15) * (1 - d / 0.15) * (3 - 2 * (1 - d / 0.15)) := by
  have ht : (d - 0.15) / (0.0 - 0.15) = 1 - d / 0.15 := by
    norm_num
    field_simp
    ring
  have hlo : (0 : ℚ) ≤ 1 - d / 0.15 := by
    have : d / 0.15 ≤ 1 := by
      rw [div_le_one (by norm_num)]
      exact le_of_lt h1
    linarith
  have hhi : 1 - d / 0.15 ≤ (1 : ℚ) := by
    have : 0 ≤ d / 0.15 := div_nonneg h0 (by norm_num)
    linarith
  unfold smoothstep clamp
  rw [ht]
  have e0 : (0.0 : ℚ) = 0 := by norm_num
  have e1 : (1.0 : ℚ) = 1 := by norm_num
  have e2 : (3.0 : ℚ) = 3 := by norm_num
  have e3 : (2.0 : ℚ) = 2 := by norm_num
  simp only [e0, e1, e2, e3, max_eq_left hlo, min_eq_left hhi]

/-- The `else` branch of the shader: at or beyond the radius the output is `vec4(0.0)`. -/
theorem main_of_radius_le (B : Builtins) (gl_FragCoord u_resolution u_mouse u_velocity : Vec2)
    (u_time : ℚ)
    (h : 0.15 ≤ fragmentShaderSource.dist B gl_FragCoord u_resolution u_mouse) :
    fragmentShaderSource.main B gl_FragCoord u_resolution u_mouse u_velocity u_time
      = ⟨0, 0, 0, 0⟩ := by
  unfold fragmentShaderSource.dist at h
  unfold fragmentShaderSource.main
  simp only [not_lt.mpr h, if_false]
  norm_num

/-- C4: whenever the normalized distance between fragment and mouse is at least 0.15,
the fragment shader outputs exactly `(0, 0, 0, 0)`: alpha 0 and all colour components 0. -/
theorem main_outside_radius (B : Builtins) (gl_FragCoord u_resolution u_mouse u_velocity : Vec2)
    (u_time : ℚ)
    (h : 0.15 ≤ fragmentShaderSource.dist B gl_FragCoord u_resolution u_mouse) :
    fragmentShaderSource.main B gl_FragCoord u_resolution u_mouse u_velocity u_time
        = ⟨0, 0, 0, 0⟩
    ∧ (fragmentShaderSource.main B gl_FragCoord u_resolution u_mouse u_velocity u_time).w = 0 := by
  rw [main_of_radius_le B gl_FragCoord u_resolution u_mouse u_velocity u_time h]
  exact ⟨rfl, rfl⟩

/-- C4 at a concrete fragment: surface 800 x 600, fragment at the right edge, pointer at
the left edge of the bottom row; the normalized distance is 1. -/
theorem main_outside_radius_witness :
    fragmentShaderSource.main sampleBuiltins ⟨800, 0⟩ ⟨800, 600⟩ ⟨0, 0⟩ ⟨3, 4⟩ 5 = ⟨0, 0, 0, 0⟩ :=
  (main_outside_radius sampleBuiltins ⟨800, 0⟩ ⟨800, 600⟩ ⟨0, 0⟩ ⟨3, 4⟩ 5 (by
    norm_num [fragmentShaderSource.dist, sampleBuiltins, Vec2.div, sqrtQ])).1

/-- Inside the radius the shader outputs the tint scaled by `factor`, with alpha
`factor * 0.5`, where `factor = smoothstep(radius, 0.0, dist)`. -/
theorem main_inside_radius (B : Builtins) (gl_FragCoord u_resolution u_mouse u_velocity : Vec2)
    (u_time : ℚ)
    (h : fragmentShaderSource.dist B gl_FragCoord u_resolution u_mouse < 0.15) :
    fragmentShaderSource.main B gl_FragCoord u_resolution u_mouse u_velocity u_time
      = ⟨0.5 * smoothstep 0.15 0.0 (fragmentShaderSource.dist B gl_FragCoord u_resolution u_mouse) * 0.3,
         0.8 * smoothstep 0.15 0.0 (fragmentShaderSource.dist B gl_FragCoord u_resolution u_mouse) * 0.3,
         1.0 * smoothstep 0.15 0.0 (fragmentShaderSource.dist B gl_FragCoord u_resolution u_mouse) * 0.3,
         smoothstep 0.15 0.0 (fragmentShaderSource.dist B gl_FragCoord u_resolution u_mouse) * 0.5⟩ := by
  unfold fragmentShaderSource.dist at h ⊢
  unfold fragmentShaderSource.main
  simp only [h, if_true, Vec3.scale]

/-- C5: when the normalized distance is 0 the shader computes
`factor = smoothstep(0.15, 0, 0) = 1` and outputs `(0.15, 0.24, 0.3)` with alpha `0.5`,
for every time and velocity. -/
theorem main_at_pointer (B : Builtins) (gl_FragCoord u_resolution u_mouse u_velocity : Vec2)
    (u_time : ℚ)
    (h : fragmentShaderSource.dist B gl_FragCoord u_resolution u_mouse = 0) :
    smoothstep 0.15 0.0 (fragmentShaderSource.dist B gl_FragCoord u_resolution u_mouse) = 1
    ∧ fragmentShaderSource.main B gl_FragCoord u_resolution u_mouse u_velocity u_time
        = ⟨0.15, 0.24, 0.3, 0.5⟩ := by
  have hf : smoothstep 0.15 0.0 (0 : ℚ) = 1 := by
    rw [smoothstep_inside 0 le_rfl (by norm_num)]
    norm_num
  have hlt : fragmentShaderSource.dist B gl_FragCoord u_resolution u_mouse < 0.15 := by
    rw [h]; norm_num
  refine ⟨by rw [h]; exact hf, ?_⟩
  rw [main_inside_radius B _ _ _ _ _ hlt, h, hf]
  norm_num

/-- C5 at a concrete fragment: the pointer sits on the fragment `(400, 300)`. -/
theorem main_at_pointer_witness :
    fragmentShaderSource.main sampleBuiltins ⟨400, 300⟩ ⟨800, 600⟩ ⟨400, 300⟩ ⟨3, 4⟩ 5
      = ⟨0.15, 0.24, 0.3, 0.5⟩ :=
  (main_at_pointer sampleBuiltins ⟨400, 300⟩ ⟨800, 600⟩ ⟨400, 300⟩ ⟨3, 4⟩ 5 (by
    norm_num [fragmentShaderSource.dist, sampleBuiltins, Vec2.div, sqrtQ])).2

/-- For every `x`, `smoothstep(0.15, 0.0, x)` lies in `[0, 1]`, and below the radius it
is at most `20 * (0.15 - x)`. -/
theorem smoothstep_bounds (d : ℚ) :
    0 ≤ smoothstep 0.15 0.0 d ∧ smoothstep 0.15 0.0 d ≤ 1
      ∧ (d < 0.15 → smoothstep 0.15 0.0 d ≤ 20 * (0.15 - d)) := by
  have e0 : (0.0 : ℚ) = 0 := by norm_num
  have e1 : (1.0 : ℚ) = 1 := by norm_num
  have e2 : (3.0 : ℚ) = 3 := by norm_num
  have e3 : (2.0 : ℚ) = 2 := by norm_num
  unfold smoothstep clamp
  simp only [e0, e1, e2, e3]
  set u : ℚ := (d - 0.15) / (0 - 0.15) with hu
  set t : ℚ := min (max u 0) 1 with ht
  have ht0 : 0 ≤ t := le_min (le_max_right _ _) zero_le_one
  have ht1 : t ≤ 1 := min_le_right _ _
  refine ⟨?_, ?_, ?_⟩
  · have : 0 ≤ 3 - 2 * t := by linarith
    positivity
  · nlinarith [mul_nonneg ht0 ht0, mul_nonneg (mul_nonneg ht0 ht0) ht0,
      mul_nonneg (sub_nonneg.mpr ht1) (sub_nonneg.mpr ht1)]
  · intro hd
    have hu' : u = (0.15 - d) / 0.15 := by
      rw [hu]
      norm_num
      field_simp
      ring
    have hupos : 0 ≤ u := by
      rw [hu']
      apply div_nonneg
      · linarith
      · norm_num
    have htu : t ≤ u := by
      rw [ht, max_eq_left hupos]
      exact min_le_left _ _
    have h3 : t * t * (3 - 2 * t) ≤ 3 * t := by
      nlinarith [mul_nonneg ht0 ht0, mul_nonneg (mul_nonneg ht0 ht0) ht0,
        mul_nonneg ht0 (sub_nonneg.mpr ht1)]
    have h4 : 3 * u = 20 * (0.15 - d) := by
      rw [hu']
      norm_num
      ring
    linarith

/-- C6: the shader's output is continuous in `dist` at the radius:
`smoothstep(0.15, 0, 0.15) = 0`; the inside-branch formula at `dist = 0.15` gives colour
`(0, 0, 0)` and alpha `0`, equal to the shader's output there; and every output component
tends to 0 as `dist` tends to 0.15 (from either side, so in particular from below). -/
theorem main_continuous_at_radius :
    smoothstep 0.15 0.0 0.15 = 0
    ∧ ((Vec3.mk 0.5 0.8 1.0).scale (smoothstep 0.15 0.0 0.15)).scale 0.3 = ⟨0, 0, 0⟩
    ∧ smoothstep 0.15 0.0 0.15 * 0.5 = 0
    ∧ (∀ (B : Builtins) (gl_FragCoord u_resolution u_mouse u_velocity : Vec2) (u_time : ℚ),
        fragmentShaderSource.dist B gl_FragCoord u_resolution u_mouse = 0.15 →
        fragmentShaderSource.main B gl_FragCoord u_resolution u_mouse u_velocity u_time
          = ⟨0, 0, 0, 0⟩)
    ∧ (∀ ε : ℚ, 0 < ε → ∃ δ : ℚ, 0 < δ ∧
        ∀ (B : Builtins) (gl_FragCoord u_resolution u_mouse u_velocity : Vec2) (u_time : ℚ),
          |fragmentShaderSource.dist B gl_FragCoord u_resolution u_mouse - 0.15| < δ →
          |(fragmentShaderSource.main B gl_FragCoord u_resolution u_mouse u_velocity u_time).x| < ε
          ∧ |(fragmentShaderSource.main B gl_FragCoord u_resolution u_mouse u_velocity u_time).y| < ε
          ∧ |(fragmentShaderSource.main B gl_FragCoord u_resolution u_mouse u_velocity u_time).z| < ε
          ∧ |(fragmentShaderSource.main B gl_FragCoord u_resolution u_mouse u_velocity u_time).w| < ε) := by
  have hs : smoothstep 0.15 0.0 0.15 = 0 := by
    norm_num [smoothstep, clamp]
  refine ⟨hs, ?_, ?_, ?_, ?_⟩
  · rw [hs]
    norm_num [Vec3.scale]
  · rw [hs]
    norm_num
  · intro B f r m v t h
    exact main_of_radius_le B f r m v t (le_of_eq h.symm)
  · intro ε hε
    refine ⟨ε / 10, by positivity, ?_⟩
    intro B f r m v t hd
    rcases lt_or_le (fragmentShaderSource.dist B f r m) 0.15 with hlt | hge
    · obtain ⟨f0, -, f2⟩ := smoothstep_bounds (fragmentShaderSource.dist B f r m)
      have f3 := f2 hlt
      have hd' : 0.15 - fragmentShaderSource.dist B f r m < ε / 10 := by
        have := (abs_lt.mp hd).1
        linarith
      rw [main_inside_radius B f r m v t hlt]
      set s := smoothstep 0.15 0.0 (fragmentShaderSource.dist B f r m) with hsdef
      have hs20 : s < 2 * ε := by linarith
      simp only []
      refine ⟨?_, ?_, ?_, ?_⟩
      · rw [abs_of_nonneg (by positivity)]
        norm_num
        nlinarith
      · rw [abs_of_nonneg (by positivity)]
        norm_num
        nlinarith
      · rw [abs_of_nonneg (by positivity)]
        norm_num
        nlinarith
      · rw [abs_of_nonneg (by positivity)]
        norm_num
        nlinarith
    · rw [main_of_radius_le B f r m v t hge]
      simp [hε]

/-- C6 at tolerance 1: a neighbourhood of the radius on which every output component
stays below 1 in absolute value, given by the sample built-ins at the fragment
`(120, 0)` of an 800 x 600 surface with the pointer at the origin (distance exactly 0.15). -/
theorem main_continuous_at_radius_witness :
    fragmentShaderSource.main sampleBuiltins ⟨120, 0⟩ ⟨800, 600⟩ ⟨0, 0⟩ ⟨3, 4⟩ 5 = ⟨0, 0, 0, 0⟩
    ∧ ∃ δ : ℚ, 0 < δ ∧
        ∀ (B : Builtins) (gl_FragCoord u_resolution u_mouse u_velocity : Vec2) (u_time : ℚ),
          |fragmentShaderSource.dist B gl_FragCoord u_resolution u_mouse - 0.15| < δ →
          |(fragmentShaderSource.main B gl_FragCoord u_resolution u_mouse u_velocity u_time).x| < 1
          ∧ |(fragmentShaderSource.main B gl_FragCoord u_resolution u_mouse u_velocity u_time).y| < 1
          ∧ |(fragmentShaderSource.main B gl_FragCoord u_resolution u_mouse u_velocity u_time).z| < 1
          ∧ |(fragmentShaderSource.main B gl_FragCoord u_resolution u_mouse u_velocity u_time).w| < 1 :=
  ⟨main_continuous_at_radius.2.2.2.1 sampleBuiltins ⟨120, 0⟩ ⟨800, 600⟩ ⟨0, 0⟩ ⟨3, 4⟩ 5 (by
      have h : Nat.sqrt 3600 = 60 := by
        symm
        rw [Nat.eq_sqrt]
        norm_num
      have h9 : Int.toNat 9 * 400 = 3600 := by decide
      norm_num [fragmentShaderSource.dist, sampleBuiltins, Vec2.div, sqrtQ, h9, h]),
    main_continuous_at_radius.2.2.2.2 1 one_pos⟩

/-- C7: the shader's output does not depend on `u_time` or `u_velocity`: two runs that
differ only in these produce the same `gl_FragColor`. -/
theorem main_independent_of_time_velocity (B : Builtins)
    (gl_FragCoord u_resolution u_mouse : Vec2) (u_velocity u_velocity' : Vec2)
    (u_time u_time' : ℚ) :
    fragmentShaderSource.main B gl_FragCoord u_resolution u_mouse u_velocity u_time
      = fragmentShaderSource.main B gl_FragCoord u_resolution u_mouse u_velocity' u_time' := by
  rfl

/-! ### Resize, clock, missing context -/

/-- Pointer moves leave an initialised component initialised and touch neither the
surface, the context, the program nor the uniform locations. -/
theorem mousemoves_live (moves : List MouseEvent) (p : Page) (l : Live)
    (h : p.effect = .live l) :
    ∃ t : Vec2,
      moves.foldl (fun s e => onMouseMove e s) p =
        { p with effect := .live { l with targetMouse := t } } := by
  induction moves generalizing p l with
  | nil => exact ⟨l.targetMouse, by simp [← h]⟩
  | cons e es ih =>
    have hstep : (onMouseMove e p).effect =
        .live { l with targetMouse := ⟨e.clientX, (p.window.innerHeight : ℚ) - e.clientY⟩ } := by
      simp [onMouseMove, h]
    obtain ⟨t, ht⟩ := ih (onMouseMove e p) _ hstep
    refine ⟨t, ?_⟩
    rw [List.foldl_cons, ht]
    simp [onMouseMove, h]

/-- The calls `init` makes on the context: the viewport, the two shaders and the
program, the two buffers, and the first frame. -/
theorem init_calls (w : Window) (c : Canvas) (gl : GLContext) (m t v : Vec2) (time : ℚ) :
    (init w c gl m t v time).effect.calls =
      gl.calls ++ [.viewport 0 0 w.innerWidth w.innerHeight]
        ++ [.createShader .VERTEX_SHADER gl.nextHandle,
            .shaderSource gl.nextHandle .vertexShaderSource,
            .compileShader gl.nextHandle,
            .createShader .FRAGMENT_SHADER (gl.nextHandle + 1),
            .shaderSource (gl.nextHandle + 1) .fragmentShaderSource,
            .compileShader (gl.nextHandle + 1),
            .createProgram (gl.nextHandle + 2),
            .attachShader (gl.nextHandle + 2) gl.nextHandle,
            .attachShader (gl.nextHandle + 2) (gl.nextHandle + 1),
            .linkProgram (gl.nextHandle + 2),
            .createBuffer (gl.nextHandle + 3),
            .bindBuffer (gl.nextHandle + 3),
            .bufferData positions,
            .createBuffer (gl.nextHandle + 4),
            .bindBuffer (gl.nextHandle + 4),
            .bufferData texCoords]
        ++ [.clear, .enableBlend, .blendFunc,
            .uniform2f ⟨gl.nextHandle + 2, .u_resolution⟩ w.innerWidth w.innerHeight,
            .uniform2f ⟨gl.nextHandle + 2, .u_mouse⟩ (lerp m.x t.x 0.1) (lerp m.y t.y 0.1),
            .uniform2f ⟨gl.nextHandle + 2, .u_velocity⟩ (t.x - lerp m.x t.x 0.1)
              (t.y - lerp m.y t.y 0.1),
            .uniform1f ⟨gl.nextHandle + 2, .u_time⟩ (time + 0.016),
            .bindBuffer (gl.nextHandle + 3),
            .enableVertexAttribArray ⟨gl.nextHandle + 2, .a_position⟩,
            .vertexAttribPointer ⟨gl.nextHandle + 2, .a_position⟩ 2,
            .bindBuffer (gl.nextHandle + 4),
            .enableVertexAttribArray ⟨gl.nextHandle + 2, .a_texCoord⟩,
            .vertexAttribPointer ⟨gl.nextHandle + 2, .a_texCoord⟩ 2,
            .drawArrays 0 6] := by
  simp [init, setupCanvas, resize, createShaders, createProgram, createShader,
    createGeometry, setupUniforms, bindEvents, render, GLContext.create, GLContext.call,
    WaterDistortionEffect.calls, add_assoc]

/-- C8: for every window size `(w, h)`, after the resize handler has run the surface
is `w` by `h` and the viewport was set to `(0, 0, w, h)`, and the next `render`, whatever
pointer moves come in between, uploads the resolution uniform as `(w, h)`; on every page
reached from the constructor a `resize` event runs that handler exactly once; and the
constructor's own first `render` uploads the size of the window it was built in. -/
theorem resize_then_render :
    (∀ (p : Page) (l : Live) (w h : Nat) (moves : List MouseEvent),
      p.effect = .live l → l.program.isSome = true →
      (onResize { p with window := ⟨w, h⟩ }).effect.canvas = some ⟨w, h⟩
      ∧ (onResize { p with window := ⟨w, h⟩ }).effect.calls
          = p.effect.calls ++ [.viewport 0 0 w h]
      ∧ ∃ rest : List GLCall,
          (render (moves.foldl (fun s e => onMouseMove e s)
              (onResize { p with window := ⟨w, h⟩ }))).effect.calls
            = (onResize { p with window := ⟨w, h⟩ }).effect.calls
                ++ [.clear, .enableBlend, .blendFunc, .uniform2f l.uniforms.resolution w h]
                ++ rest)
    ∧ (∀ (P : Platform) (win : Window) (events : List Event) (w h : Nat),
        (run (construct P win) events).effect.ready = true →
        step (run (construct P win) events) (.resize w h)
          = onResize { run (construct P win) events with window := ⟨w, h⟩ })
    ∧ (∀ (P : Platform) (win : Window) (c : Canvas) (gl : GLContext),
        P.canvas = some c →
        (P.getContext .webgl).orElse (fun _ => P.getContext .experimental_webgl) = some gl →
        (construct P win).effect.canvas = some ⟨win.innerWidth, win.innerHeight⟩
        ∧ ∃ mid rest : List GLCall,
            (construct P win).effect.calls
              = gl.calls ++ [.viewport 0 0 win.innerWidth win.innerHeight] ++ mid
                ++ [.clear, .enableBlend, .blendFunc,
                    .uniform2f ⟨gl.nextHandle + 2, .u_resolution⟩ win.innerWidth win.innerHeight]
                ++ rest) := by
  refine ⟨?_, ?_, ?_⟩
  · intro p l w h moves hl hp
    have hq : (onResize { p with window := ⟨w, h⟩ }).effect
        = .live { l with canvas := ⟨w, h⟩, gl := l.gl.call (.viewport 0 0 w h) } := by
      simp [onResize, hl, resize]
    refine ⟨by rw [hq]; rfl, by rw [hq, hl]; rfl, ?_⟩
    obtain ⟨t, ht⟩ := mousemoves_live moves _ _ hq
    rw [ht, render_of_ready _ _ rfl (by simpa using hp), hq]
    simp [WaterDistortionEffect.calls, GLContext.call, renderCalls]
  · intro P win events w h hr
    have hw := run_wired events (construct P win) (construct_wired P win)
    generalize run (construct P win) events = q at hr hw
    cases hE : q.effect with
    | noCanvas => simp [WaterDistortionEffect.ready, hE] at hr
    | noContext c => simp [WaterDistortionEffect.ready, hE] at hr
    | live l =>
      simp only [Page.Wired, hE] at hw
      simp [step, dispatch, hw.2.1]
  · intro P win c gl hc hg
    rw [construct_of_context P win c gl hc hg]
    refine ⟨?_, ?_⟩
    · simp [init, setupCanvas, resize, createShaders, createProgram, createShader,
        createGeometry, setupUniforms, bindEvents, render, GLContext.create, GLContext.call,
        WaterDistortionEffect.canvas]
    · rw [init_calls]
      refine ⟨[.createShader .VERTEX_SHADER gl.nextHandle,
            .shaderSource gl.nextHandle .vertexShaderSource,
            .compileShader gl.nextHandle,
            .createShader .FRAGMENT_SHADER (gl.nextHandle + 1),
            .shaderSource (gl.nextHandle + 1) .fragmentShaderSource,
            .compileShader (gl.nextHandle + 1),
            .createProgram (gl.nextHandle + 2),
            .attachShader (gl.nextHandle + 2) gl.nextHandle,
            .attachShader (gl.nextHandle + 2) (gl.nextHandle + 1),
            .linkProgram (gl.nextHandle + 2),
            .createBuffer (gl.nextHandle + 3),
            .bindBuffer (gl.nextHandle + 3),
            .bufferData positions,
            .createBuffer (gl.nextHandle + 4),
            .bindBuffer (gl.nextHandle + 4),
            .bufferData texCoords],
           [.uniform2f ⟨gl.nextHandle + 2, .u_mouse⟩ (lerp 0 0 0.1) (lerp 0 0 0.1),
            .uniform2f ⟨gl.nextHandle + 2, .u_velocity⟩ (0 - lerp 0 0 0.1) (0 - lerp 0 0 0.1),
            .uniform1f ⟨gl.nextHandle + 2, .u_time⟩ (0 + 0.016),
            .bindBuffer (gl.nextHandle + 3),
            .enableVertexAttribArray ⟨gl.nextHandle + 2, .a_position⟩,
            .vertexAttribPointer ⟨gl.nextHandle + 2, .a_position⟩ 2,
            .bindBuffer (gl.nextHandle + 4),
            .enableVertexAttribArray ⟨gl.nextHandle + 2, .a_texCoord⟩,
            .vertexAttribPointer ⟨gl.nextHandle + 2, .a_texCoord⟩ 2,
            .drawArrays 0 6], ?_⟩
      simp only [List.append_assoc, List.cons_append, List.nil_append]

/-- C8 at the sample page: resize to 800 x 600, one pointer move, then `render`. -/
theorem resize_then_render_witness :
    (onResize { samplePage with window := ⟨800, 600⟩ }).effect.canvas = some ⟨800, 600⟩
    ∧ (onResize { samplePage with window := ⟨800, 600⟩ }).effect.calls
        = samplePage.effect.calls ++ [.viewport 0 0 800 600]
    ∧ ∃ rest : List GLCall,
        (render ([(⟨10, 20⟩ : MouseEvent)].foldl (fun s e => onMouseMove e s)
            (onResize { samplePage with window := ⟨800, 600⟩ }))).effect.calls
          = (onResize { samplePage with window := ⟨800, 600⟩ }).effect.calls
              ++ [.clear, .enableBlend, .blendFunc,
                  .uniform2f sampleLive.uniforms.resolution (800 : ℕ) (600 : ℕ)]
              ++ rest :=
  resize_then_render.1 samplePage sampleLive 800 600 [⟨10, 20⟩] rfl rfl

/-- Along any run of events from a wired, initialised page whose time location names
`u_time`, the clock advances by 0.016 per display refresh and by nothing else, the calls
made so far are only extended, and the new calls upload exactly the successive clock
values to `u_time`. -/
theorem run_clock (events : List Event) (p : Page) (l : Live) (hw : p.Wired)
    (hl : p.effect = .live l) (hu : l.uniforms.time.name = .u_time) :
    ∃ (l' : Live) (new : List GLCall),
      (run p events).effect = .live l'
      ∧ l'.time = l.time + (events.countP Event.isFrame : ℚ) * 0.016
      ∧ l'.gl.calls = l.gl.calls ++ new
      ∧ timeUploads new =
          (List.range (events.countP Event.isFrame)).map
            (fun k : ℕ => l.time + ((k : ℚ) + 1) * 0.016) := by
  induction events generalizing p l with
  | nil => exact ⟨l, [], hl, by simp, by simp, by simp [timeUploads]⟩
  | cons e es ih =>
    have hw' := step_wired p e hw
    have hw0 := hw
    simp only [Page.Wired, hl] at hw0
    obtain ⟨h1, h2, h3, h4⟩ := hw0
    obtain ⟨x, hx⟩ := Option.isSome_iff_exists.mp h3
    cases e with
    | resize a b =>
      have hs : (step p (.resize a b)).effect
          = .live { l with canvas := ⟨a, b⟩, gl := l.gl.call (.viewport 0 0 a b) } := by
        simp [step, dispatch, h2, onResize, hl, resize]
      obtain ⟨l', new, e1, e2, e3, e4⟩ := ih _ _ hw' hs hu
      refine ⟨l', .viewport 0 0 a b :: new, e1, ?_, ?_, ?_⟩
      · simpa [Event.isFrame] using e2
      · simpa [GLContext.call] using e3
      · simpa [timeUploads, Event.isFrame] using e4
    | mousemove m =>
      have hs : (step p (.mousemove m)).effect
          = .live { l with
              targetMouse := ⟨m.clientX, (p.window.innerHeight : ℚ) - m.clientY⟩ } := by
        simp [step, dispatch, h2, onMouseMove, hl]
      obtain ⟨l', new, e1, e2, e3, e4⟩ := ih _ _ hw' hs hu
      refine ⟨l', new, e1, ?_, ?_, ?_⟩
      · simpa [Event.isFrame] using e2
      · simpa using e3
      · simpa [Event.isFrame] using e4
    | frame =>
      have hs : step p .frame = render { p with frames := p.frames - 1 } := by
        simp [step, h4]
      have hr := render_of_ready { p with frames := p.frames - 1 } l hl h3
      rw [← hs] at hr
      have hs' := congrArg Page.effect hr
      simp only at hs'
      obtain ⟨l', new, e1, e2, e3, e4⟩ := ih _ _ hw' hs' hu
      refine ⟨l', renderCalls l ++ new, e1, ?_, ?_, ?_⟩
      · rw [e2]
        simp [Event.isFrame]
        ring
      · rw [e3]
        simp only [List.append_assoc]
      · simp only [timeUploads, List.filterMap_append] at e4 ⊢
        rw [e4]
        simp [renderCalls, hu, Event.isFrame, List.range_succ_eq_map, List.map_map,
          Function.comp_def]
        intro k _
        ring

/-- The component built by `init` is initialised, its clock has advanced once, and its
uniform locations are those of `setupUniforms`. -/
theorem init_live (w : Window) (c : Canvas) (gl : GLContext) (m t v : Vec2) (time : ℚ) :
    ∃ l : Live,
      (init w c gl m t v time).effect = .live l
      ∧ l.time = time + 0.016
      ∧ l.uniforms = (setupUniforms (gl.nextHandle + 2)).1
      ∧ l.attributes = (setupUniforms (gl.nextHandle + 2)).2
      ∧ l.program = some (gl.nextHandle + 2) := by
  simp [init, setupCanvas, resize, createShaders, createProgram, createShader,
    createGeometry, setupUniforms, bindEvents, render, GLContext.create, GLContext.call,
    add_assoc]

/-- C9: the constructor starts the clock at 0; every `render` step that passes the guard
adds exactly 0.016 and uploads the new value as the time uniform; and on every page
reached from the constructor through any pointer moves, resizes and display refreshes,
the clock is `n * 0.016` where `n` counts the frames run so far (the one in `init`
included), the values uploaded to `u_time` being `0.016, 0.032, ..., n * 0.016` in order. -/
theorem clock_fixed_step :
    (∀ (P : Platform) (win : Window) (c : Canvas) (gl : GLContext),
        P.canvas = some c →
        (P.getContext .webgl).orElse (fun _ => P.getContext .experimental_webgl) = some gl →
        construct P win = init win c gl ⟨0, 0⟩ ⟨0, 0⟩ ⟨0, 0⟩ 0)
    ∧ (∀ (p : Page) (l : Live), p.effect = .live l → l.program.isSome = true →
        (render p).effect.time = some (l.time + 0.016)
        ∧ l.time < l.time + 0.016
        ∧ (render p).effect.calls = p.effect.calls ++ renderCalls l
        ∧ GLCall.uniform1f l.uniforms.time (l.time + 0.016) ∈ renderCalls l)
    ∧ (∀ (P : Platform) (win : Window) (c : Canvas) (gl : GLContext) (events : List Event),
        P.canvas = some c →
        (P.getContext .webgl).orElse (fun _ => P.getContext .experimental_webgl) = some gl →
        (run (construct P win) events).effect.time
          = some (((1 + events.countP Event.isFrame : ℕ) : ℚ) * 0.016)
        ∧ ∃ new : List GLCall,
            (run (construct P win) events).effect.calls = gl.calls ++ new
            ∧ timeUploads new =
                (List.range (1 + events.countP Event.isFrame)).map
                  (fun k : ℕ => ((k : ℚ) + 1) * 0.016)) := by
  refine ⟨construct_of_context, ?_, ?_⟩
  · intro p l hl hp
    rw [render_of_ready p l hl hp]
    refine ⟨rfl, by norm_num, by simp [WaterDistortionEffect.calls, hl], by simp [renderCalls]⟩
  · intro P win c gl events hc hg
    have hw := construct_wired P win
    rw [construct_of_context P win c gl hc hg] at hw ⊢
    obtain ⟨l0, h0, ht, hu, -, -⟩ := init_live win c gl ⟨0, 0⟩ ⟨0, 0⟩ ⟨0, 0⟩ 0
    have hcalls := init_calls win c gl ⟨0, 0⟩ ⟨0, 0⟩ ⟨0, 0⟩ 0
    rw [h0] at hcalls
    simp only [WaterDistortionEffect.calls] at hcalls
    obtain ⟨l', new, e1, e2, e3, e4⟩ :=
      run_clock events _ l0 hw h0 (by rw [hu]; rfl)
    refine ⟨?_, ?_⟩
    · rw [e1]
      simp only [WaterDistortionEffect.time, e2, ht, Option.some.injEq]
      push_cast
      ring
    · rw [e1]
      simp only [WaterDistortionEffect.calls, e3, hcalls, List.append_assoc]
      refine ⟨_, rfl, ?_⟩
      simp only [timeUploads, List.filterMap_append] at e4 ⊢
      rw [e4, ht]
      simp [Nat.add_comm 1, List.range_succ_eq_map, List.map_map, Function.comp_def]
      intro k _
      ring

/-- C9 on the sample platform: after a pointer move, a frame, a resize and another
frame the clock reads `3 * 0.016`, the third value uploaded to `u_time`. -/
theorem clock_fixed_step_witness :
    (run (construct samplePlatform ⟨800, 600⟩)
        [.mousemove ⟨400, 300⟩, .frame, .resize 1024 768, .frame]).effect.time
      = some (((1 + 2 : ℕ) : ℚ) * 0.016)
    ∧ ∃ new : List GLCall,
        (run (construct samplePlatform ⟨800, 600⟩)
            [.mousemove ⟨400, 300⟩, .frame, .resize 1024 768, .frame]).effect.calls
          = sampleContext.calls ++ new
        ∧ timeUploads new = (List.range (1 + 2)).map (fun k : ℕ => ((k : ℚ) + 1) * 0.016) :=
  clock_fixed_step.2.2 samplePlatform ⟨800, 600⟩ ⟨300, 150⟩ sampleContext
    [.mousemove ⟨400, 300⟩, .frame, .resize 1024 768, .frame] rfl rfl

/-- A page whose component has no context, no listener and no pending frame stays so
under every event; only the window's size can change. -/
theorem run_no_context (events : List Event) (p : Page) (c : Canvas)
    (he : p.effect = .noContext c) (hl : p.listeners = []) (hf : p.frames = 0) :
    (run p events).effect = .noContext c
    ∧ (run p events).listeners = []
    ∧ (run p events).frames = 0
    ∧ (run p events).console = p.console := by
  induction events generalizing p with
  | nil => exact ⟨he, hl, hf, rfl⟩
  | cons e es ih =>
    have key : (step p e).effect = .noContext c ∧ (step p e).listeners = []
        ∧ (step p e).frames = 0 ∧ (step p e).console = p.console := by
      cases e <;> simp [step, dispatch, hl, hf, he]
    obtain ⟨k1, k2, k3, k4⟩ := key
    obtain ⟨r1, r2, r3, r4⟩ := ih (step p e) k1 k2 k3
    exact ⟨r1, r2, r3, r4.trans k4⟩

/-- C10: when the canvas offers neither a `webgl` nor an `experimental-webgl` context,
the constructor logs one warning and leaves the component inert: `init` has not run (no
listener, no call on any context, no frame scheduled, none of the pointer or clock fields
assigned), and after any later events a call of `render` returns the page unchanged. -/
theorem no_context_inert (P : Platform) (win : Window) (c : Canvas)
    (hc : P.canvas = some c)
    (hw : P.getContext .webgl = none)
    (hx : P.getContext .experimental_webgl = none) :
    (construct P win).console = [LogEntry.warn "WebGL not supported"]
    ∧ (construct P win).effect = .noContext c
    ∧ (construct P win).listeners = []
    ∧ (construct P win).frames = 0
    ∧ (construct P win).effect.calls = []
    ∧ (construct P win).effect.ready = false
    ∧ ∀ events : List Event,
        render (run (construct P win) events) = run (construct P win) events
        ∧ (run (construct P win) events).effect = .noContext c
        ∧ (run (construct P win) events).effect.time = none
        ∧ (run (construct P win) events).effect.mouse = none
        ∧ (run (construct P win) events).effect.velocity = none
        ∧ (run (construct P win) events).effect.calls = []
        ∧ (run (construct P win) events).listeners = []
        ∧ (run (construct P win) events).frames = 0
        ∧ (run (construct P win) events).console = [LogEntry.warn "WebGL not supported"] := by
  have hcon : construct P win
      = ⟨win, .noContext c, [], [LogEntry.warn "WebGL not supported"], 0⟩ := by
    simp [construct, hc, hw, hx]
  rw [hcon]
  refine ⟨rfl, rfl, rfl, rfl, rfl, rfl, ?_⟩
  intro events
  obtain ⟨r1, r2, r3, r4⟩ := run_no_context events
    ⟨win, .noContext c, [], [LogEntry.warn "WebGL not supported"], 0⟩ c rfl rfl rfl
  refine ⟨?_, r1, ?_, ?_, ?_, ?_, r2, r3, r4⟩
  · exact render_of_not_ready _ (by rw [r1]; rfl)
  all_goals rw [r1]; rfl

/-- C10 on a browser without WebGL: after a pointer move, a resize and a display
refresh, `render` still changes nothing. -/
theorem no_context_inert_witness :
    (construct noWebGLPlatform ⟨800, 600⟩).console = [LogEntry.warn "WebGL not supported"]
    ∧ (construct noWebGLPlatform ⟨800, 600⟩).listeners = []
    ∧ (construct noWebGLPlatform ⟨800, 600⟩).frames = 0
    ∧ render (run (construct noWebGLPlatform ⟨800, 600⟩)
          [.mousemove ⟨400, 300⟩, .resize 1024 768, .frame])
        = run (construct noWebGLPlatform ⟨800, 600⟩)
          [.mousemove ⟨400, 300⟩, .resize 1024 768, .frame] :=
  have h := no_context_inert noWebGLPlatform ⟨800, 600⟩ ⟨300, 150⟩ rfl rfl rfl
  ⟨h.1, h.2.2.1, h.2.2.2.1,
    (h.2.2.2.2.2.2 [.mousemove ⟨400, 300⟩, .resize 1024 768, .frame]).1⟩

/-! ### Shader compilation and linking -/

/-- What `createShader` returns: the handle it created, the three calls it made, and
the console with one more error exactly when the compile status is false. -/
theorem createShader_result (gl : GLContext) (console : List LogEntry) (type : ShaderType)
    (source : ShaderSource) :
    (createShader gl console type source).1 = gl.nextHandle
    ∧ (createShader gl console type source).2.1.calls =
        gl.calls ++ [.createShader type gl.nextHandle, .shaderSource gl.nextHandle source,
          .compileShader gl.nextHandle]
    ∧ (createShader gl console type source).2.1.nextHandle = gl.nextHandle + 1
    ∧ (createShader gl console type source).2.2 =
        console ++ (if gl.compileStatus type source = true then []
          else [LogEntry.error "Shader compilation error:"]) := by
  cases hs : gl.compileStatus type source <;>
    simp [createShader, GLContext.create, GLContext.call, hs]

/-- What `createProgram` returns: the handle of the program it created, and the console
with one more error for each failed compile and for a failed link. -/
theorem createProgram_result (gl : GLContext) (console : List LogEntry)
    (vertexSource fragmentSource : ShaderSource) :
    (createProgram gl console vertexSource fragmentSource).1 = gl.nextHandle + 2
    ∧ (createProgram gl console vertexSource fragmentSource).2.1.calls =
        gl.calls ++
          [.createShader .VERTEX_SHADER gl.nextHandle,
           .shaderSource gl.nextHandle vertexSource,
           .compileShader gl.nextHandle,
           .createShader .FRAGMENT_SHADER (gl.nextHandle + 1),
           .shaderSource (gl.nextHandle + 1) fragmentSource,
           .compileShader (gl.nextHandle + 1),
           .createProgram (gl.nextHandle + 2),
           .attachShader (gl.nextHandle + 2) gl.nextHandle,
           .attachShader (gl.nextHandle + 2) (gl.nextHandle + 1),
           .linkProgram (gl.nextHandle + 2)]
    ∧ (createProgram gl console vertexSource fragmentSource).2.2 =
        console
          ++ (if gl.compileStatus .VERTEX_SHADER vertexSource = true then []
              else [LogEntry.error "Shader compilation error:"])
          ++ (if gl.compileStatus .FRAGMENT_SHADER fragmentSource = true then []
              else [LogEntry.error "Shader compilation error:"])
          ++ (if gl.linkStatus = true then []
              else [LogEntry.error "Program linking error:"]) := by
  cases hv : gl.compileStatus .VERTEX_SHADER vertexSource <;>
  cases hf : gl.compileStatus .FRAGMENT_SHADER fragmentSource <;>
  cases hl : gl.linkStatus <;>
    simp [createProgram, createShader, GLContext.create, GLContext.call, hv, hf, hl, add_assoc]

/-- The console after `init`: the errors of `createShaders` and nothing else. -/
theorem init_console (w : Window) (c : Canvas) (gl : GLContext) (m t v : Vec2) (time : ℚ) :
    (init w c gl m t v time).console =
      (if gl.compileStatus .VERTEX_SHADER .vertexShaderSource = true then []
        else [LogEntry.error "Shader compilation error:"])
      ++ (if gl.compileStatus .FRAGMENT_SHADER .fragmentShaderSource = true then []
          else [LogEntry.error "Shader compilation error:"])
      ++ (if gl.linkStatus = true then [] else [LogEntry.error "Program linking error:"]) := by
  cases hv : gl.compileStatus .VERTEX_SHADER .vertexShaderSource <;>
  cases hf : gl.compileStatus .FRAGMENT_SHADER .fragmentShaderSource <;>
  cases hl : gl.linkStatus <;>
    simp [init, setupCanvas, resize, createShaders, createProgram, createShader,
      createGeometry, setupUniforms, bindEvents, render, GLContext.create, GLContext.call,
      hv, hf, hl]

/-- Events leave the console as it is. -/
theorem run_console (events : List Event) (p : Page) : (run p events).console = p.console := by
  induction events generalizing p with
  | nil => rfl
  | cons e es ih =>
    have hstep : (step p e).console = p.console := by
      have hd : ∀ (k : Listener) (f : Page → Page), (∀ q, (f q).console = q.console) →
          ∀ q, (dispatch k f q).console = q.console := by
        intro k f hf q
        unfold dispatch
        generalize q.listeners.filter (fun l => l = k) = ls
        induction ls generalizing q with
        | nil => rfl
        | cons a as ih2 => simp only [List.foldl_cons]; rw [ih2, hf]
      have hrender : ∀ q : Page, (render q).console = q.console := by
        intro q
        unfold render
        split
        · split <;> rfl
        · rfl
      cases e with
      | resize a b =>
        simp only [step]
        rw [hd]
        intro q; unfold onResize; split <;> rfl
      | mousemove m =>
        simp only [step]
        rw [hd]
        intro q; unfold onMouseMove; split <;> rfl
      | frame =>
        simp only [step]
        split
        · rfl
        · rw [hrender]
    show (run (step p e) es).console = p.console
    rw [ih, hstep]

/-- C11: whatever the compile and link outcomes, `createShader` and `createProgram` log
an error exactly when the status queried is false and return the handle they created;
so after the constructor the guard of `render` passes on every page reached through any
events, and every `render` there schedules the next frame. -/
theorem compile_link_failure_not_fatal :
    (∀ (gl : GLContext) (console : List LogEntry) (type : ShaderType) (source : ShaderSource),
      (createShader gl console type source).1 = gl.nextHandle
      ∧ GLCall.createShader type (createShader gl console type source).1
          ∈ (createShader gl console type source).2.1.calls
      ∧ (createShader gl console type source).2.2 =
          console ++ (if gl.compileStatus type source = true then []
            else [LogEntry.error "Shader compilation error:"]))
    ∧ (∀ (gl : GLContext) (console : List LogEntry) (vertexSource fragmentSource : ShaderSource),
      (createProgram gl console vertexSource fragmentSource).1 = gl.nextHandle + 2
      ∧ GLCall.createProgram (createProgram gl console vertexSource fragmentSource).1
          ∈ (createProgram gl console vertexSource fragmentSource).2.1.calls
      ∧ (createProgram gl console vertexSource fragmentSource).2.2 =
          console
            ++ (if gl.compileStatus .VERTEX_SHADER vertexSource = true then []
                else [LogEntry.error "Shader compilation error:"])
            ++ (if gl.compileStatus .FRAGMENT_SHADER fragmentSource = true then []
                else [LogEntry.error "Shader compilation error:"])
            ++ (if gl.linkStatus = true then []
                else [LogEntry.error "Program linking error:"]))
    ∧ (∀ (P : Platform) (win : Window) (c : Canvas) (gl : GLContext) (events : List Event),
        P.canvas = some c →
        (P.getContext .webgl).orElse (fun _ => P.getContext .experimental_webgl) = some gl →
        (run (construct P win) events).effect.ready = true
        ∧ (run (construct P win) events).frames = 1
        ∧ (render (run (construct P win) events)).frames
            = (run (construct P win) events).frames + 1
        ∧ (step (run (construct P win) events) .frame).frames = 1
        ∧ (run (construct P win) events).console =
            (if gl.compileStatus .VERTEX_SHADER .vertexShaderSource = true then []
              else [LogEntry.error "Shader compilation error:"])
            ++ (if gl.compileStatus .FRAGMENT_SHADER .fragmentShaderSource = true then []
                else [LogEntry.error "Shader compilation error:"])
            ++ (if gl.linkStatus = true then []
                else [LogEntry.error "Program linking error:"])) := by
  refine ⟨?_, ?_, ?_⟩
  · intro gl console type source
    obtain ⟨h1, h2, -, h4⟩ := createShader_result gl console type source
    refine ⟨h1, ?_, h4⟩
    rw [h1, h2]
    simp
  · intro gl console vs fs
    obtain ⟨h1, h2, h3⟩ := createProgram_result gl console vs fs
    refine ⟨h1, ?_, h3⟩
    rw [h1, h2]
    simp
  · intro P win c gl events hc hg
    have hw := run_wired events (construct P win) (construct_wired P win)
    have hcon : (run (construct P win) events).console = (construct P win).console :=
      run_console events _
    rw [construct_of_context P win c gl hc hg] at hw hcon ⊢
    obtain ⟨l0, h0, -, -, -, hp0⟩ := init_live win c gl ⟨0, 0⟩ ⟨0, 0⟩ ⟨0, 0⟩ 0
    obtain ⟨l', -, e1, -, -, -⟩ :=
      run_clock events _ l0 (by simpa using init_wired win c gl _ _ _ _) h0
        (by obtain ⟨l1, g0, -, gu, -, -⟩ := init_live win c gl ⟨0, 0⟩ ⟨0, 0⟩ ⟨0, 0⟩ 0
            rw [h0] at g0
            cases g0
            rw [gu]
            rfl)
    generalize run (init win c gl ⟨0, 0⟩ ⟨0, 0⟩ ⟨0, 0⟩ 0) events = q at hw hcon e1
    simp only [Page.Wired, e1] at hw
    obtain ⟨-, -, w3, w4⟩ := hw
    have hs : step q Event.frame = render { q with frames := q.frames - 1 } := by
      simp [step, w4]
    refine ⟨by simpa [e1, WaterDistortionEffect.ready] using w3, w4, ?_, ?_, ?_⟩
    · rw [render_of_ready q l' e1 w3]
    · rw [hs, render_of_ready { q with frames := q.frames - 1 } l' e1 w3]
      simp [w4]
    · rw [hcon, init_console]

/-- C11 on a driver that fails both compiles and the link: three errors are logged, the
guard still passes and the frame after a pointer move and a refresh is scheduled. -/
theorem compile_link_failure_not_fatal_witness :
    (run (construct failingPlatform ⟨800, 600⟩) [.mousemove ⟨1, 2⟩, .frame]).effect.ready = true
    ∧ (run (construct failingPlatform ⟨800, 600⟩) [.mousemove ⟨1, 2⟩, .frame]).frames = 1
    ∧ (run (construct failingPlatform ⟨800, 600⟩) [.mousemove ⟨1, 2⟩, .frame]).console =
        [LogEntry.error "Shader compilation error:", LogEntry.error "Shader compilation error:",
         LogEntry.error "Program linking error:"] :=
  have h := compile_link_failure_not_fatal.2.2 failingPlatform ⟨800, 600⟩ ⟨300, 150⟩
    failingContext [.mousemove ⟨1, 2⟩, .frame] rfl rfl
  ⟨h.1, h.2.1, h.2.2.2.2⟩

/-! ### Frame of the pointer-move handler -/

/-- The `mousemove` listener leaves everything but the target position as it was. -/
theorem onMouseMove_frame (e : MouseEvent) (p : Page) :
    (onMouseMove e p).effect.mouse = p.effect.mouse
    ∧ (onMouseMove e p).effect.velocity = p.effect.velocity
    ∧ (onMouseMove e p).effect.time = p.effect.time
    ∧ (onMouseMove e p).effect.canvas = p.effect.canvas
    ∧ (onMouseMove e p).effect.calls = p.effect.calls
    ∧ (onMouseMove e p).frames = p.frames
    ∧ (onMouseMove e p).window = p.window
    ∧ (onMouseMove e p).listeners = p.listeners
    ∧ (onMouseMove e p).console = p.console := by
  unfold onMouseMove
  cases hE : p.effect <;>
    simp [hE, WaterDistortionEffect.mouse, WaterDistortionEffect.velocity,
      WaterDistortionEffect.time, WaterDistortionEffect.canvas, WaterDistortionEffect.calls]

/-- C13: the pointer-move handler changes only the target position: smoothed position,
velocity, clock and surface size are unchanged, no call is made on the graphics context
(so nothing is drawn) and no frame is scheduled, for every state and every input; the
same holds for the delivery of a `mousemove` event to however many registered listeners. -/
theorem mousemove_only_target (e : MouseEvent) (p : Page) :
    ((onMouseMove e p).effect.mouse = p.effect.mouse
      ∧ (onMouseMove e p).effect.velocity = p.effect.velocity
      ∧ (onMouseMove e p).effect.time = p.effect.time
      ∧ (onMouseMove e p).effect.canvas = p.effect.canvas
      ∧ (onMouseMove e p).effect.calls = p.effect.calls
      ∧ (onMouseMove e p).frames = p.frames)
    ∧ ((step p (.mousemove e)).effect.mouse = p.effect.mouse
      ∧ (step p (.mousemove e)).effect.velocity = p.effect.velocity
      ∧ (step p (.mousemove e)).effect.time = p.effect.time
      ∧ (step p (.mousemove e)).effect.canvas = p.effect.canvas
      ∧ (step p (.mousemove e)).effect.calls = p.effect.calls
      ∧ (step p (.mousemove e)).frames = p.frames) := by
  obtain ⟨a1, a2, a3, a4, a5, a6, -, -, -⟩ := onMouseMove_frame e p
  refine ⟨⟨a1, a2, a3, a4, a5, a6⟩, ?_⟩
  simp only [step, dispatch]
  generalize p.listeners.filter (fun l => l = Listener.mousemove) = ls
  have key : ∀ (ls : List Listener) (q : Page),
      (ls.foldl (fun s _ => onMouseMove e s) q).effect.mouse = q.effect.mouse
      ∧ (ls.foldl (fun s _ => onMouseMove e s) q).effect.velocity = q.effect.velocity
      ∧ (ls.foldl (fun s _ => onMouseMove e s) q).effect.time = q.effect.time
      ∧ (ls.foldl (fun s _ => onMouseMove e s) q).effect.canvas = q.effect.canvas
      ∧ (ls.foldl (fun s _ => onMouseMove e s) q).effect.calls = q.effect.calls
      ∧ (ls.foldl (fun s _ => onMouseMove e s) q).frames = q.frames := by
    intro ls
    induction ls with
    | nil => intro q; exact ⟨rfl, rfl, rfl, rfl, rfl, rfl⟩
    | cons a as ih =>
      intro q
      obtain ⟨b1, b2, b3, b4, b5, b6, -, -, -⟩ := onMouseMove_frame e q
      obtain ⟨c1, c2, c3, c4, c5, c6⟩ := ih (onMouseMove e q)
      simp only [List.foldl_cons]
      exact ⟨c1.trans b1, c2.trans b2, c3.trans b3, c4.trans b4, c5.trans b5, c6.trans b6⟩
  exact key ls p

/-! ### Range of the proximity factor -/

/-- The cubic `t * t * (3 - 2 * t)` is strictly increasing on `[0, 1]`. -/
theorem cubic_strictMono (a b : ℚ) (hb : 0 ≤ b) (hab : b < a) (ha : a ≤ 1) :
    b * b * (3 - 2 * b) < a * a * (3 - 2 * a) := by
  have h1 : 0 < a := lt_of_le_of_lt hb hab
  have h2 : b < 1 := lt_of_lt_of_le hab ha
  have key : 0 < 3 * (a + b) - 2 * (a * a + a * b + b * b) := by
    nlinarith [mul_nonneg (le_of_lt h1) (sub_nonneg.mpr ha),
      mul_nonneg hb (sub_nonneg.mpr (le_of_lt h2)),
      mul_pos h1 (sub_pos.mpr h2), mul_nonneg hb (sub_nonneg.mpr ha)]
  have hfac : a * a * (3 - 2 * a) - b * b * (3 - 2 * b)
      = (a - b) * (3 * (a + b) - 2 * (a * a + a * b + b * b)) := by ring
  have := mul_pos (sub_pos.mpr hab) key
  linarith

/-- C14: for `0 <= dist < 0.15` the factor `smoothstep(0.15, 0, dist)` equals
`t * t * (3 - 2 * t)` with `t = 1 - dist / 0.15`, lies in `(0, 1]`, is 1 at the pointer and
strictly decreasing in `dist`; the shader's alpha then lies in `(0, 0.5]` and each colour
component in `(0, 0.3]`. -/
theorem factor_range (d : ℚ) (h0 : 0 ≤ d) (h1 : d < 0.15) :
    smoothstep 0.15 0.0 d = (1 - d / 0.15) * (1 - d / 0.15) * (3 - 2 * (1 - d / 0.15))
    ∧ 0 < smoothstep 0.15 0.0 d
    ∧ smoothstep 0.15 0.0 d ≤ 1
    ∧ smoothstep 0.15 0.0 0 = 1
    ∧ (∀ d' : ℚ, d < d' → d' < 0.15 → smoothstep 0.15 0.0 d' < smoothstep 0.15 0.0 d)
    ∧ (∀ (B : Builtins) (gl_FragCoord u_resolution u_mouse u_velocity : Vec2) (u_time : ℚ),
        fragmentShaderSource.dist B gl_FragCoord u_resolution u_mouse = d →
        0 < (fragmentShaderSource.main B gl_FragCoord u_resolution u_mouse u_velocity u_time).w
        ∧ (fragmentShaderSource.main B gl_FragCoord u_resolution u_mouse u_velocity u_time).w ≤ 0.5
        ∧ 0 < (fragmentShaderSource.main B gl_FragCoord u_resolution u_mouse u_velocity u_time).x
        ∧ (fragmentShaderSource.main B gl_FragCoord u_resolution u_mouse u_velocity u_time).x ≤ 0.3
        ∧ 0 < (fragmentShaderSource.main B gl_FragCoord u_resolution u_mouse u_velocity u_time).y
        ∧ (fragmentShaderSource.main B gl_FragCoord u_resolution u_mouse u_velocity u_time).y ≤ 0.3
        ∧ 0 < (fragmentShaderSource.main B gl_FragCoord u_resolution u_mouse u_velocity u_time).z
        ∧ (fragmentShaderSource.main B gl_FragCoord u_resolution u_mouse u_velocity u_time).z
            ≤ 0.3) := by
  have tpos : ∀ x : ℚ, 0 ≤ x → x < 0.15 → 0 < 1 - x / 0.15 ∧ 1 - x / 0.15 ≤ 1 := by
    intro x hx0 hx1
    have hlt : x / 0.15 < 1 := by
      rw [div_lt_one (by norm_num)]
      exact hx1
    have hge : 0 ≤ x / 0.15 := div_nonneg hx0 (by norm_num)
    constructor <;> linarith
  have hform := smoothstep_inside d h0 h1
  obtain ⟨t0, t1⟩ := tpos d h0 h1
  have hpos : 0 < smoothstep 0.15 0.0 d := by
    rw [hform]
    have : 0 < 3 - 2 * (1 - d / 0.15) := by linarith
    positivity
  have hle : smoothstep 0.15 0.0 d ≤ 1 := (smoothstep_bounds d).2.1
  refine ⟨hform, hpos, hle, ?_, ?_, ?_⟩
  · rw [smoothstep_inside 0 le_rfl (by norm_num)]
    norm_num
  · intro d' hd hd'
    have h0' : 0 ≤ d' := le_trans h0 (le_of_lt hd)
    rw [hform, smoothstep_inside d' h0' hd']
    obtain ⟨s0, s1⟩ := tpos d' h0' hd'
    apply cubic_strictMono _ _ (le_of_lt s0) _ t1
    have : d / 0.15 < d' / 0.15 := div_lt_div_of_pos_right hd (by norm_num)
    linarith
  · intro B f r m v t hd
    have hlt : fragmentShaderSource.dist B f r m < 0.15 := by rw [hd]; exact h1
    rw [main_inside_radius B f r m v t hlt, hd]
    simp only []
    refine ⟨?_, ?_, ?_, ?_, ?_, ?_, ?_, ?_⟩ <;> first | positivity | (norm_num; nlinarith)

/-- C14 half-way to the edge: at `dist = 0.075` the factor is `1/2`, and the sample
built-ins give that distance for the fragment `(60, 0)` of an 800 x 600 surface with the
pointer at the origin. -/
theorem factor_range_witness :
    smoothstep 0.15 0.0 0.075 = 1 / 2
    ∧ 0 < (fragmentShaderSource.main sampleBuiltins ⟨60, 0⟩ ⟨800, 600⟩ ⟨0, 0⟩ ⟨3, 4⟩ 5).w
    ∧ (fragmentShaderSource.main sampleBuiltins ⟨60, 0⟩ ⟨800, 600⟩ ⟨0, 0⟩ ⟨3, 4⟩ 5).w ≤ 0.5 := by
  have h := factor_range 0.075 (by norm_num) (by norm_num)
  have hd : fragmentShaderSource.dist sampleBuiltins ⟨60, 0⟩ ⟨800, 600⟩ ⟨0, 0⟩ = 0.075 := by
    have h1 : Nat.sqrt 14400 = 120 := by
      symm
      rw [Nat.eq_sqrt]
      norm_num
    have h9 : Int.toNat 9 * 1600 = 14400 := by decide
    norm_num [fragmentShaderSource.dist, sampleBuiltins, Vec2.div, sqrtQ, h9, h1]
  obtain ⟨g1, g2, -⟩ := h.2.2.2.2.2 sampleBuiltins ⟨60, 0⟩ ⟨800, 600⟩ ⟨0, 0⟩ ⟨3, 4⟩ 5 hd
  refine ⟨?_, g1, g2⟩
  rw [h.1]
  norm_num

/-! ### Convergence of the smoothed position -/

/-- After `n` consecutive `render` calls that pass the guard, with the target fixed, the
smoothed position is `t + (s0 - t) * 0.9 ^ n`; the stored velocity is `(t - s0) * 0.9 ^ n`
once a `render` has written it (or if it was `t - s0` to begin with). -/
theorem iterate_render (n : ℕ) (p : Page) (l : Live) (hl : p.effect = .live l)
    (hp : l.program.isSome = true) :
    ∃ l' : Live, (render^[n] p).effect = .live l'
      ∧ l'.targetMouse = l.targetMouse
      ∧ l'.program = l.program
      ∧ l'.mouse.x = l.targetMouse.x + (l.mouse.x - l.targetMouse.x) * 0.9 ^ n
      ∧ l'.mouse.y = l.targetMouse.y + (l.mouse.y - l.targetMouse.y) * 0.9 ^ n
      ∧ ((1 ≤ n ∨ l.velocity = ⟨l.targetMouse.x - l.mouse.x, l.targetMouse.y - l.mouse.y⟩) →
          l'.velocity.x = (l.targetMouse.x - l.mouse.x) * 0.9 ^ n
          ∧ l'.velocity.y = (l.targetMouse.y - l.mouse.y) * 0.9 ^ n) := by
  induction n generalizing p l with
  | zero =>
    refine ⟨l, hl, rfl, rfl, by simp, by simp, ?_⟩
    intro h
    rcases h with h | h
    · omega
    · rw [h]; simp
  | succ n ih =>
    have hr := render_of_ready p l hl hp
    have he := congrArg Page.effect hr
    simp only at he
    obtain ⟨l', e1, e2, e3, e4, e5, e6⟩ := ih (render p) _ he hp
    refine ⟨l', ?_, e2, e3, ?_, ?_, ?_⟩
    · rw [Function.iterate_succ_apply]; exact e1
    · rw [e4]; simp only [lerp]; ring
    · rw [e5]; simp only [lerp]; ring
    · intro _
      obtain ⟨v1, v2⟩ := e6 (Or.inr rfl)
      constructor
      · rw [v1]; simp only [lerp]; ring
      · rw [v2]; simp only [lerp]; ring

/-- A point `t + (s - t) * r` with `0 <= r <= 1` lies between `s` and `t`. -/
theorem between_of_convex (s t r : ℚ) (h0 : 0 ≤ r) (h1 : r ≤ 1) :
    min s t ≤ t + (s - t) * r ∧ t + (s - t) * r ≤ max s t := by
  rcases le_total s t with h | h
  · rw [min_eq_left h, max_eq_right h]
    constructor <;> nlinarith [mul_nonneg (sub_nonneg.mpr h) h0,
      mul_nonneg (sub_nonneg.mpr h) (sub_nonneg.mpr h1)]
  · rw [min_eq_right h, max_eq_left h]
    constructor <;> nlinarith [mul_nonneg (sub_nonneg.mpr h) h0,
      mul_nonneg (sub_nonneg.mpr h) (sub_nonneg.mpr h1)]

/-- C17: with the target fixed at `t` and the smoothed position starting at `s0`, after
`n` consecutive `render` steps the smoothed position is `t + (s0 - t) * 0.9 ^ n` and the
velocity written by the last step is `(t - s0) * 0.9 ^ n` (at `n = 0`, where no step has
written it, this needs the stored velocity to be `t - s0`, as it is after the constructor
and after every `render`); the offset to the target shrinks by the factor 0.9 per frame,
the smoothed position stays between `s0` and `t`, and `smoothed = t` is a fixed point with
velocity 0. -/
theorem smoothing_converges (n : ℕ) (p : Page) (l : Live) (hl : p.effect = .live l)
    (hp : l.program.isSome = true) :
    ∃ l' l'' : Live,
      (render^[n] p).effect = .live l'
      ∧ (render^[n + 1] p).effect = .live l''
      ∧ l'.targetMouse = l.targetMouse
      ∧ l'.mouse.x = l.targetMouse.x + (l.mouse.x - l.targetMouse.x) * 0.9 ^ n
      ∧ l'.mouse.y = l.targetMouse.y + (l.mouse.y - l.targetMouse.y) * 0.9 ^ n
      ∧ ((1 ≤ n ∨ l.velocity = ⟨l.targetMouse.x - l.mouse.x, l.targetMouse.y - l.mouse.y⟩) →
          l'.velocity.x = (l.targetMouse.x - l.mouse.x) * 0.9 ^ n
          ∧ l'.velocity.y = (l.targetMouse.y - l.mouse.y) * 0.9 ^ n)
      ∧ |l.targetMouse.x - l''.mouse.x| = 0.9 * |l.targetMouse.x - l'.mouse.x|
      ∧ |l.targetMouse.y - l''.mouse.y| = 0.9 * |l.targetMouse.y - l'.mouse.y|
      ∧ min l.mouse.x l.targetMouse.x ≤ l'.mouse.x
      ∧ l'.mouse.x ≤ max l.mouse.x l.targetMouse.x
      ∧ min l.mouse.y l.targetMouse.y ≤ l'.mouse.y
      ∧ l'.mouse.y ≤ max l.mouse.y l.targetMouse.y
      ∧ (l.mouse = l.targetMouse →
          l'.mouse = l.targetMouse ∧ (1 ≤ n → l'.velocity = ⟨0, 0⟩)) := by
  obtain ⟨l', e1, e2, -, e4, e5, e6⟩ := iterate_render n p l hl hp
  obtain ⟨l'', f1, -, -, f4, f5, -⟩ := iterate_render (n + 1) p l hl hp
  have r0 : (0 : ℚ) ≤ 0.9 ^ n := by positivity
  have r1 : (0.9 : ℚ) ^ n ≤ 1 := pow_le_one₀ (by norm_num) (by norm_num)
  obtain ⟨bx1, bx2⟩ := between_of_convex l.mouse.x l.targetMouse.x _ r0 r1
  obtain ⟨by1, by2⟩ := between_of_convex l.mouse.y l.targetMouse.y _ r0 r1
  refine ⟨l', l'', e1, f1, e2, e4, e5, e6, ?_, ?_, ?_, ?_, ?_, ?_, ?_⟩
  · have : l.targetMouse.x - l''.mouse.x = 0.9 * (l.targetMouse.x - l'.mouse.x) := by
      rw [f4, e4, pow_succ]; ring
    rw [this, abs_mul, abs_of_nonneg (by norm_num : (0 : ℚ) ≤ 0.9)]
  · have : l.targetMouse.y - l''.mouse.y = 0.9 * (l.targetMouse.y - l'.mouse.y) := by
      rw [f5, e5, pow_succ]; ring
    rw [this, abs_mul, abs_of_nonneg (by norm_num : (0 : ℚ) ≤ 0.9)]
  · rw [e4]; exact bx1
  · rw [e4]; exact bx2
  · rw [e5]; exact by1
  · rw [e5]; exact by2
  · intro hfix
    have hx : l.mouse.x = l.targetMouse.x := by rw [hfix]
    have hy : l.mouse.y = l.targetMouse.y := by rw [hfix]
    constructor
    · cases hm : l'.mouse with
      | mk mx my =>
        rw [hm] at e4 e5
        simp only at e4 e5
        cases ht : l.targetMouse with
        | mk tx ty =>
          rw [ht] at e4 e5 hx hy
          simp only at e4 e5 hx hy
          rw [e4, e5, hx, hy]
          simp
    · intro hn
      obtain ⟨v1, v2⟩ := e6 (Or.inl hn)
      cases hv : l'.velocity with
      | mk vx vy =>
        rw [hv] at v1 v2
        simp only at v1 v2
        rw [v1, v2, hx, hy]
        simp

/-- C17 at the sample page after two frames: smoothed `(76, 57)`, velocity `(324, 243)`. -/
theorem smoothing_converges_witness :
    ∃ l' : Live, (render^[2] samplePage).effect = .live l'
      ∧ l'.mouse.x = 76 ∧ l'.mouse.y = 57 ∧ l'.velocity.x = 324 ∧ l'.velocity.y = 243 := by
  obtain ⟨l', -, e1, -, -, e4, e5, e6, -⟩ := smoothing_converges 2 samplePage sampleLive rfl rfl
  obtain ⟨v1, v2⟩ := e6 (Or.inl (by norm_num))
  refine ⟨l', e1, ?_, ?_, ?_, ?_⟩
  · rw [e4]; norm_num [sampleLive]
  · rw [e5]; norm_num [sampleLive]
  · rw [v1]; norm_num [sampleLive]
  · rw [v2]; norm_num [sampleLive]

/-! ### The full-viewport quad -/

/-- The first triangle of the quad is the part of the plane with `x >= -1`, `y >= -1`,
`x + y <= 0`. -/
theorem inTriangle_lower (p : Vec2) :
    inTriangle ⟨-1, -1⟩ ⟨1, -1⟩ ⟨-1, 1⟩ p ↔ -1 ≤ p.x ∧ -1 ≤ p.y ∧ p.x + p.y ≤ 0 := by
  constructor
  · rintro ⟨u, v, w, hu, hv, hw, hs, hx, hy⟩
    simp only at hx hy
    refine ⟨?_, ?_, ?_⟩ <;> linarith
  · rintro ⟨h1, h2, h3⟩
    refine ⟨-(p.x + p.y) / 2, (p.x + 1) / 2, (p.y + 1) / 2, ?_, ?_, ?_, ?_, ?_, ?_⟩
    · linarith
    · linarith
    · linarith
    · ring
    · simp only; ring
    · simp only; ring

/-- The second triangle of the quad is the part of the plane with `x <= 1`, `y <= 1`,
`x + y >= 0`. -/
theorem inTriangle_upper (p : Vec2) :
    inTriangle ⟨-1, 1⟩ ⟨1, -1⟩ ⟨1, 1⟩ p ↔ p.x ≤ 1 ∧ p.y ≤ 1 ∧ 0 ≤ p.x + p.y := by
  constructor
  · rintro ⟨u, v, w, hu, hv, hw, hs, hx, hy⟩
    simp only at hx hy
    refine ⟨?_, ?_, ?_⟩ <;> linarith
  · rintro ⟨h1, h2, h3⟩
    refine ⟨(1 - p.x) / 2, (1 - p.y) / 2, (p.x + p.y) / 2, ?_, ?_, ?_, ?_, ?_, ?_⟩
    · linarith
    · linarith
    · linarith
    · ring
    · simp only; ring
    · simp only; ring

/-- The buffers `createGeometry` fills and the handles it returns. -/
theorem createGeometry_result (gl : GLContext) :
    (createGeometry gl).1 = gl.nextHandle
    ∧ (createGeometry gl).2.1 = gl.nextHandle + 1
    ∧ (createGeometry gl).2.2.calls =
        gl.calls ++
          [.createBuffer gl.nextHandle, .bindBuffer gl.nextHandle, .bufferData positions,
           .createBuffer (gl.nextHandle + 1), .bindBuffer (gl.nextHandle + 1),
           .bufferData texCoords] := by
  simp [createGeometry, GLContext.create, GLContext.call]

/-- The buffers of the component built by `init` are the two that `createGeometry` made. -/
theorem init_buffers (w : Window) (c : Canvas) (gl : GLContext) (m t v : Vec2) (time : ℚ) :
    ∃ l : Live,
      (init w c gl m t v time).effect = .live l
      ∧ l.positionBuffer = gl.nextHandle + 3
      ∧ l.texCoordBuffer = gl.nextHandle + 4 := by
  simp [init, setupCanvas, resize, createShaders, createProgram, createShader,
    createGeometry, setupUniforms, bindEvents, render, GLContext.create, GLContext.call,
    add_assoc]

/-- Along any run of events from a wired, initialised page the two vertex buffers, the
attribute locations and the program stay what they were, the calls made so far are only
extended, and the new calls hand no data to `bufferData`. -/
theorem run_buffers (events : List Event) (p : Page) (l : Live) (hw : p.Wired)
    (hl : p.effect = .live l) :
    ∃ (l' : Live) (new : List GLCall),
      (run p events).effect = .live l'
      ∧ l'.positionBuffer = l.positionBuffer
      ∧ l'.texCoordBuffer = l.texCoordBuffer
      ∧ l'.attributes = l.attributes
      ∧ l'.program = l.program
      ∧ l'.gl.calls = l.gl.calls ++ new
      ∧ bufferUploads new = [] := by
  induction events generalizing p l with
  | nil => exact ⟨l, [], hl, rfl, rfl, rfl, rfl, by simp, by simp [bufferUploads]⟩
  | cons e es ih =>
    have hw' := step_wired p e hw
    have hw0 := hw
    simp only [Page.Wired, hl] at hw0
    obtain ⟨h1, h2, h3, h4⟩ := hw0
    cases e with
    | resize a b =>
      have hs : (step p (.resize a b)).effect
          = .live { l with canvas := ⟨a, b⟩, gl := l.gl.call (.viewport 0 0 a b) } := by
        simp [step, dispatch, h2, onResize, hl, resize]
      obtain ⟨l', new, e1, e2, e3, e4, e5, e6, e7⟩ := ih _ _ hw' hs
      refine ⟨l', .viewport 0 0 a b :: new, e1, e2, e3, e4, e5, ?_, ?_⟩
      · simpa [GLContext.call] using e6
      · simpa [bufferUploads] using e7
    | mousemove m =>
      have hs : (step p (.mousemove m)).effect
          = .live { l with
              targetMouse := ⟨m.clientX, (p.window.innerHeight : ℚ) - m.clientY⟩ } := by
        simp [step, dispatch, h2, onMouseMove, hl]
      obtain ⟨l', new, e1, e2, e3, e4, e5, e6, e7⟩ := ih _ _ hw' hs
      exact ⟨l', new, e1, e2, e3, e4, e5, e6, e7⟩
    | frame =>
      have hs : step p .frame = render { p with frames := p.frames - 1 } := by
        simp [step, h4]
      have hr := render_of_ready { p with frames := p.frames - 1 } l hl h3
      rw [← hs] at hr
      have hs' := congrArg Page.effect hr
      simp only at hs'
      obtain ⟨l', new, e1, e2, e3, e4, e5, e6, e7⟩ := ih _ _ hw' hs'
      refine ⟨l', renderCalls l ++ new, e1, e2, e3, e4, e5, ?_, ?_⟩
      · rw [e6]
        simp only [List.append_assoc]
      · simp only [bufferUploads, List.filterMap_append] at e7 ⊢
        rw [e7]
        simp [renderCalls]

/-- C12: `createGeometry` uploads 6 two-component vertices forming two triangles whose
union is the clip-space square `[-1, 1] x [-1, 1]` and whose intersection is its diagonal
`x + y = 0`; the texture coordinates match vertex by vertex, `texCoord = (position +
(1, 1)) / 2`, and lie in the unit square; every `render` that passes its guard ends its
calls by binding the two buffers with two components per vertex and issuing
`drawArrays(TRIANGLES, 0, 6)`, its only draw call; and on every page reached from the
constructor the buffers so bound are the two that `createGeometry` filled, the only data
ever handed to `bufferData` being `positions` and `texCoords`. -/
theorem quad_geometry :
    positions.length = 12
    ∧ vertices positions = [⟨-1, -1⟩, ⟨1, -1⟩, ⟨-1, 1⟩, ⟨-1, 1⟩, ⟨1, -1⟩, ⟨1, 1⟩]
    ∧ (vertices positions).length = 6
    ∧ triangles (vertices positions) =
        [(⟨-1, -1⟩, ⟨1, -1⟩, ⟨-1, 1⟩), (⟨-1, 1⟩, ⟨1, -1⟩, ⟨1, 1⟩)]
    ∧ (∀ p : Vec2,
        (inTriangle ⟨-1, -1⟩ ⟨1, -1⟩ ⟨-1, 1⟩ p ∨ inTriangle ⟨-1, 1⟩ ⟨1, -1⟩ ⟨1, 1⟩ p)
          ↔ (-1 ≤ p.x ∧ p.x ≤ 1 ∧ -1 ≤ p.y ∧ p.y ≤ 1))
    ∧ (∀ p : Vec2,
        (inTriangle ⟨-1, -1⟩ ⟨1, -1⟩ ⟨-1, 1⟩ p ∧ inTriangle ⟨-1, 1⟩ ⟨1, -1⟩ ⟨1, 1⟩ p)
          ↔ (-1 ≤ p.x ∧ p.x ≤ 1 ∧ p.x + p.y = 0))
    ∧ vertices texCoords =
        (vertices positions).map (fun v => (⟨(v.x + 1) / 2, (v.y + 1) / 2⟩ : Vec2))
    ∧ (∀ tc ∈ vertices texCoords, 0 ≤ tc.x ∧ tc.x ≤ 1 ∧ 0 ≤ tc.y ∧ tc.y ≤ 1)
    ∧ (∀ gl : GLContext,
        (createGeometry gl).2.2.calls =
          gl.calls ++
            [.createBuffer (createGeometry gl).1, .bindBuffer (createGeometry gl).1,
             .bufferData positions,
             .createBuffer (createGeometry gl).2.1, .bindBuffer (createGeometry gl).2.1,
             .bufferData texCoords])
    ∧ (∀ (p : Page) (l : Live), p.effect = .live l → l.program.isSome = true →
        drawCalls ((render p).effect.calls.drop p.effect.calls.length) = [.drawArrays 0 6]
        ∧ ∃ before : List GLCall,
            drawCalls before = []
            ∧ (render p).effect.calls =
                p.effect.calls ++ before ++
                  [.bindBuffer l.positionBuffer,
                   .enableVertexAttribArray l.attributes.position,
                   .vertexAttribPointer l.attributes.position 2,
                   .bindBuffer l.texCoordBuffer,
                   .enableVertexAttribArray l.attributes.texCoord,
                   .vertexAttribPointer l.attributes.texCoord 2,
                   .drawArrays 0 6])
    ∧ (∀ (w : Window) (c : Canvas) (gl : GLContext) (m t v : Vec2) (time : ℚ),
        ∃ l : Live,
          (init w c gl m t v time).effect = .live l
          ∧ [GLCall.createBuffer l.positionBuffer, .bindBuffer l.positionBuffer,
              .bufferData positions,
              .createBuffer l.texCoordBuffer, .bindBuffer l.texCoordBuffer,
              .bufferData texCoords] <:+: l.gl.calls)
    ∧ (∀ (P : Platform) (win : Window) (c : Canvas) (gl : GLContext) (events : List Event),
        P.canvas = some c →
        (P.getContext .webgl).orElse (fun _ => P.getContext .experimental_webgl) = some gl →
        ∃ l : Live,
          (run (construct P win) events).effect = .live l
          ∧ l.program.isSome = true
          ∧ [GLCall.createBuffer l.positionBuffer, .bindBuffer l.positionBuffer,
              .bufferData positions,
              .createBuffer l.texCoordBuffer, .bindBuffer l.texCoordBuffer,
              .bufferData texCoords] <:+: l.gl.calls
          ∧ bufferUploads (l.gl.calls.drop gl.calls.length) = [positions, texCoords]
          ∧ l.attributes = ⟨⟨gl.nextHandle + 2, .a_position⟩, ⟨gl.nextHandle + 2, .a_texCoord⟩⟩
          ∧ drawCalls ((step (run (construct P win) events) .frame).effect.calls.drop
              l.gl.calls.length) = [.drawArrays 0 6]
          ∧ ∃ before : List GLCall,
              drawCalls before = []
              ∧ (step (run (construct P win) events) .frame).effect.calls =
                  l.gl.calls ++ before ++
                    [.bindBuffer l.positionBuffer,
                     .enableVertexAttribArray l.attributes.position,
                     .vertexAttribPointer l.attributes.position 2,
                     .bindBuffer l.texCoordBuffer,
                     .enableVertexAttribArray l.attributes.texCoord,
                     .vertexAttribPointer l.attributes.texCoord 2,
                     .drawArrays 0 6]) := by
  have hrender : ∀ (p : Page) (l : Live), p.effect = .live l → l.program.isSome = true →
      drawCalls ((render p).effect.calls.drop l.gl.calls.length) = [.drawArrays 0 6]
      ∧ ∃ before : List GLCall,
          drawCalls before = []
          ∧ (render p).effect.calls =
              l.gl.calls ++ before ++
                [.bindBuffer l.positionBuffer,
                 .enableVertexAttribArray l.attributes.position,
                 .vertexAttribPointer l.attributes.position 2,
                 .bindBuffer l.texCoordBuffer,
                 .enableVertexAttribArray l.attributes.texCoord,
                 .vertexAttribPointer l.attributes.texCoord 2,
                 .drawArrays 0 6] := by
    intro p l hl hp
    rw [render_of_ready p l hl hp]
    simp only [WaterDistortionEffect.calls, List.drop_left]
    refine ⟨by simp [drawCalls, renderCalls], ?_⟩
    refine ⟨[.clear, .enableBlend, .blendFunc,
      .uniform2f l.uniforms.resolution l.canvas.width l.canvas.height,
      .uniform2f l.uniforms.mouse (lerp l.mouse.x l.targetMouse.x 0.1)
        (lerp l.mouse.y l.targetMouse.y 0.1),
      .uniform2f l.uniforms.velocity
        (l.targetMouse.x - lerp l.mouse.x l.targetMouse.x 0.1)
        (l.targetMouse.y - lerp l.mouse.y l.targetMouse.y 0.1),
      .uniform1f l.uniforms.time (l.time + 0.016)], by simp [drawCalls], ?_⟩
    simp [renderCalls]
  refine ⟨rfl, rfl, rfl, rfl, ?_, ?_, ?_, ?_, ?_, ?_, ?_, ?_⟩
  · intro p
    rw [inTriangle_lower, inTriangle_upper]
    constructor
    · rintro (⟨h1, h2, h3⟩ | ⟨h1, h2, h3⟩) <;> refine ⟨?_, ?_, ?_, ?_⟩ <;> linarith
    · rintro ⟨h1, h2, h3, h4⟩
      rcases le_total (p.x + p.y) 0 with h | h
      · exact Or.inl ⟨h1, h3, h⟩
      · exact Or.inr ⟨h2, h4, h⟩
  · intro p
    rw [inTriangle_lower, inTriangle_upper]
    constructor
    · rintro ⟨⟨h1, h2, h3⟩, ⟨h4, h5, h6⟩⟩
      exact ⟨h1, h4, le_antisymm h3 h6⟩
    · rintro ⟨h1, h2, h3⟩
      refine ⟨⟨h1, ?_, le_of_eq h3⟩, ⟨h2, ?_, le_of_eq h3.symm⟩⟩ <;> linarith
  · norm_num [vertices, texCoords, positions]
  · intro tc htc
    simp only [vertices, texCoords, List.mem_cons, List.mem_singleton, List.not_mem_nil,
      or_false] at htc
    rcases htc with h | h | h | h | h | h <;> rw [h] <;> norm_num
  · intro gl
    obtain ⟨h1, h2, h3⟩ := createGeometry_result gl
    rw [h1, h2, h3]
  · intro p l hl hp
    have hc : p.effect.calls = l.gl.calls := by rw [hl]; rfl
    rw [hc]
    exact hrender p l hl hp
  · intro w c gl m t v time
    obtain ⟨l, h0, hp, ht⟩ := init_buffers w c gl m t v time
    have hcalls := init_calls w c gl m t v time
    rw [h0] at hcalls
    simp only [WaterDistortionEffect.calls] at hcalls
    refine ⟨l, h0, ?_⟩
    rw [hcalls, hp, ht]
    refine ⟨gl.calls ++ [.viewport 0 0 w.innerWidth w.innerHeight]
        ++ [.createShader .VERTEX_SHADER gl.nextHandle,
            .shaderSource gl.nextHandle .vertexShaderSource,
            .compileShader gl.nextHandle,
            .createShader .FRAGMENT_SHADER (gl.nextHandle + 1),
            .shaderSource (gl.nextHandle + 1) .fragmentShaderSource,
            .compileShader (gl.nextHandle + 1),
            .createProgram (gl.nextHandle + 2),
            .attachShader (gl.nextHandle + 2) gl.nextHandle,
            .attachShader (gl.nextHandle + 2) (gl.nextHandle + 1),
            .linkProgram (gl.nextHandle + 2)],
      [.clear, .enableBlend, .blendFunc,
        .uniform2f ⟨gl.nextHandle + 2, .u_resolution⟩ w.innerWidth w.innerHeight,
        .uniform2f ⟨gl.nextHandle + 2, .u_mouse⟩ (lerp m.x t.x 0.1) (lerp m.y t.y 0.1),
        .uniform2f ⟨gl.nextHandle + 2, .u_velocity⟩ (t.x - lerp m.x t.x 0.1)
          (t.y - lerp m.y t.y 0.1),
        .uniform1f ⟨gl.nextHandle + 2, .u_time⟩ (time + 0.016),
        .bindBuffer (gl.nextHandle + 3),
        .enableVertexAttribArray ⟨gl.nextHandle + 2, .a_position⟩,
        .vertexAttribPointer ⟨gl.nextHandle + 2, .a_position⟩ 2,
        .bindBuffer (gl.nextHandle + 4),
        .enableVertexAttribArray ⟨gl.nextHandle + 2, .a_texCoord⟩,
        .vertexAttribPointer ⟨gl.nextHandle + 2, .a_texCoord⟩ 2,
        .drawArrays 0 6], ?_⟩
    simp
  · intro P win c gl events hc hg
    have hw := construct_wired P win
    rw [construct_of_context P win c gl hc hg] at hw ⊢
    obtain ⟨l0, h0, hp0, ht0⟩ := init_buffers win c gl ⟨0, 0⟩ ⟨0, 0⟩ ⟨0, 0⟩ 0
    obtain ⟨l1, g0, -, -, ga, -⟩ := init_live win c gl ⟨0, 0⟩ ⟨0, 0⟩ ⟨0, 0⟩ 0
    rw [h0] at g0
    cases g0
    have hcalls := init_calls win c gl ⟨0, 0⟩ ⟨0, 0⟩ ⟨0, 0⟩ 0
    rw [h0] at hcalls
    simp only [WaterDistortionEffect.calls] at hcalls
    obtain ⟨l, new, e1, e2, e3, e4, e5, e6, e7⟩ := run_buffers events _ l0 hw h0
    have hwq := run_wired events _ hw
    generalize run (init win c gl ⟨0, 0⟩ ⟨0, 0⟩ ⟨0, 0⟩ 0) events = q at e1 hwq
    simp only [Page.Wired, e1] at hwq
    obtain ⟨-, -, w3, w4⟩ := hwq
    have hs : step q Event.frame = render { q with frames := q.frames - 1 } := by
      simp [step, w4]
    obtain ⟨r1, r2⟩ := hrender { q with frames := q.frames - 1 } l e1 w3
    refine ⟨l, e1, w3, ?_, ?_, ?_, ?_, ?_⟩
    · rw [e2, e3, e6, hcalls, hp0, ht0]
      refine ⟨gl.calls ++ [.viewport 0 0 win.innerWidth win.innerHeight]
          ++ [.createShader .VERTEX_SHADER gl.nextHandle,
              .shaderSource gl.nextHandle .vertexShaderSource,
              .compileShader gl.nextHandle,
              .createShader .FRAGMENT_SHADER (gl.nextHandle + 1),
              .shaderSource (gl.nextHandle + 1) .fragmentShaderSource,
              .compileShader (gl.nextHandle + 1),
              .createProgram (gl.nextHandle + 2),
              .attachShader (gl.nextHandle + 2) gl.nextHandle,
              .attachShader (gl.nextHandle + 2) (gl.nextHandle + 1),
              .linkProgram (gl.nextHandle + 2)],
        [.clear, .enableBlend, .blendFunc,
          .uniform2f ⟨gl.nextHandle + 2, .u_resolution⟩ win.innerWidth win.innerHeight,
          .uniform2f ⟨gl.nextHandle + 2, .u_mouse⟩ (lerp 0 0 0.1) (lerp 0 0 0.1),
          .uniform2f ⟨gl.nextHandle + 2, .u_velocity⟩ (0 - lerp 0 0 0.1) (0 - lerp 0 0 0.1),
          .uniform1f ⟨gl.nextHandle + 2, .u_time⟩ (0 + 0.016),
          .bindBuffer (gl.nextHandle + 3),
          .enableVertexAttribArray ⟨gl.nextHandle + 2, .a_position⟩,
          .vertexAttribPointer ⟨gl.nextHandle + 2, .a_position⟩ 2,
          .bindBuffer (gl.nextHandle + 4),
          .enableVertexAttribArray ⟨gl.nextHandle + 2, .a_texCoord⟩,
          .vertexAttribPointer ⟨gl.nextHandle + 2, .a_texCoord⟩ 2,
          .drawArrays 0 6] ++ new, ?_⟩
      simp
    · rw [e6, hcalls]
      simp only [List.append_assoc, List.drop_left]
      simp only [bufferUploads, List.filterMap_append] at e7 ⊢
      rw [e7]
      simp
    · rw [e4, ga]
      rfl
    · rw [hs]
      exact r1
    · rw [hs]
      exact r2

/-- C12 at the point `(1/2, -1/4)` of the square, which lies in one of the two
triangles, and at the sample page, where `render` issues its one draw call; on the sample
platform a frame after a pointer move and a resize draws from the buffers 3 and 4 that
`createGeometry` filled. -/
theorem quad_geometry_witness :
    (inTriangle ⟨-1, -1⟩ ⟨1, -1⟩ ⟨-1, 1⟩ ⟨1 / 2, -1 / 4⟩
      ∨ inTriangle ⟨-1, 1⟩ ⟨1, -1⟩ ⟨1, 1⟩ ⟨1 / 2, -1 / 4⟩)
    ∧ drawCalls ((render samplePage).effect.calls.drop samplePage.effect.calls.length)
        = [.drawArrays 0 6]
    ∧ ∃ l : Live,
        (run (construct samplePlatform ⟨800, 600⟩)
          [.mousemove ⟨400, 300⟩, .resize 1024 768]).effect = .live l
        ∧ bufferUploads (l.gl.calls.drop sampleContext.calls.length) = [positions, texCoords]
        ∧ drawCalls ((step (run (construct samplePlatform ⟨800, 600⟩)
            [.mousemove ⟨400, 300⟩, .resize 1024 768]) .frame).effect.calls.drop
              l.gl.calls.length) = [.drawArrays 0 6] :=
  have h := quad_geometry
  ⟨(h.2.2.2.2.1 ⟨1 / 2, -1 / 4⟩).mpr (by norm_num),
   (h.2.2.2.2.2.2.2.2.2.1 samplePage sampleLive rfl rfl).1,
   (h.2.2.2.2.2.2.2.2.2.2.2 samplePlatform ⟨800, 600⟩ ⟨300, 150⟩ sampleContext
      [.mousemove ⟨400, 300⟩, .resize 1024 768] rfl rfl).elim
     fun l hl => ⟨l, hl.1, hl.2.2.2.1, hl.2.2.2.2.2.1⟩⟩

/-! ### The mobile menu -/

/-- Adding a token makes it present; removing it makes it absent. -/
theorem classList_mem (classList : List String) (token : String) :
    token ∈ classListAdd classList token ∧ token ∉ classListRemove classList token := by
  constructor
  · unfold classListAdd
    split
    · assumption
    · simp
  · simp [classListRemove]

/-- Adding twice is adding once; removing twice is removing once. -/
theorem classList_idem (classList : List String) (token : String) :
    classListAdd (classListAdd classList token) token = classListAdd classList token
    ∧ classListRemove (classListRemove classList token) token
        = classListRemove classList token := by
  constructor
  · have h := (classList_mem classList token).1
    generalize classListAdd classList token = cl at h ⊢
    unfold classListAdd
    simp [h]
  · simp [classListRemove, List.filter_filter]

/-- C16: `MobileNavigation` starts closed; `toggleMenu` negates `isOpen`, so two toggles
restore it; `openMenu` and `closeMenu` are idempotent; and after every operation `isOpen`
is true exactly when button and links both carry `active` and the body overflow is
`hidden`, and false exactly when neither carries it and the overflow is `auto`. -/
theorem menu_toggle :
    (∀ (mobileMenuBtn navLinks : List String) (overflow : String),
      (MobileNavigation.construct mobileMenuBtn navLinks overflow).isOpen = false)
    ∧ (∀ s : MobileNavigation, s.toggleMenu.isOpen = !s.isOpen)
    ∧ (∀ s : MobileNavigation, s.toggleMenu.toggleMenu.isOpen = s.isOpen)
    ∧ (∀ s : MobileNavigation, s.openMenu.openMenu = s.openMenu)
    ∧ (∀ s : MobileNavigation, s.closeMenu.closeMenu = s.closeMenu)
    ∧ (∀ (op : MenuOp) (s : MobileNavigation),
        ((op.apply s).isOpen = true ↔
          "active" ∈ (op.apply s).mobileMenuBtn ∧ "active" ∈ (op.apply s).navLinks
            ∧ (op.apply s).overflow = "hidden")
        ∧ ((op.apply s).isOpen = false ↔
          "active" ∉ (op.apply s).mobileMenuBtn ∧ "active" ∉ (op.apply s).navLinks
            ∧ (op.apply s).overflow = "auto")) := by
  have hopen : ∀ s : MobileNavigation,
      s.openMenu.isOpen = true ∧ "active" ∈ s.openMenu.mobileMenuBtn
        ∧ "active" ∈ s.openMenu.navLinks ∧ s.openMenu.overflow = "hidden" := by
    intro s
    exact ⟨rfl, (classList_mem _ _).1, (classList_mem _ _).1, rfl⟩
  have hclose : ∀ s : MobileNavigation,
      s.closeMenu.isOpen = false ∧ "active" ∉ s.closeMenu.mobileMenuBtn
        ∧ "active" ∉ s.closeMenu.navLinks ∧ s.closeMenu.overflow = "auto" := by
    intro s
    exact ⟨rfl, (classList_mem _ _).2, (classList_mem _ _).2, rfl⟩
  have hne : ("hidden" : String) ≠ "auto" := by decide
  have opened : ∀ q : MobileNavigation,
      q.isOpen = true → "active" ∈ q.mobileMenuBtn → "active" ∈ q.navLinks →
      q.overflow = "hidden" →
      (q.isOpen = true ↔ "active" ∈ q.mobileMenuBtn ∧ "active" ∈ q.navLinks
          ∧ q.overflow = "hidden")
      ∧ (q.isOpen = false ↔ "active" ∉ q.mobileMenuBtn ∧ "active" ∉ q.navLinks
          ∧ q.overflow = "auto") := by
    intro q h1 h2 h3 h4
    refine ⟨⟨fun _ => ⟨h2, h3, h4⟩, fun _ => h1⟩, ⟨fun h => ?_, fun h => absurd h2 h.1⟩⟩
    rw [h1] at h
    cases h
  have closed : ∀ q : MobileNavigation,
      q.isOpen = false → "active" ∉ q.mobileMenuBtn → "active" ∉ q.navLinks →
      q.overflow = "auto" →
      (q.isOpen = true ↔ "active" ∈ q.mobileMenuBtn ∧ "active" ∈ q.navLinks
          ∧ q.overflow = "hidden")
      ∧ (q.isOpen = false ↔ "active" ∉ q.mobileMenuBtn ∧ "active" ∉ q.navLinks
          ∧ q.overflow = "auto") := by
    intro q h1 h2 h3 h4
    refine ⟨⟨fun h => ?_, fun h => absurd h.1 h2⟩, ⟨fun _ => ⟨h2, h3, h4⟩, fun _ => h1⟩⟩
    rw [h1] at h
    cases h
  refine ⟨fun _ _ _ => rfl, ?_, ?_, ?_, ?_, ?_⟩
  · intro s
    unfold MobileNavigation.toggleMenu
    cases h : s.isOpen
    · simp [(hopen s).1]
    · simp [(hclose s).1]
  · intro s
    cases h : s.isOpen
    · have h1 : s.toggleMenu = s.openMenu := by simp [MobileNavigation.toggleMenu, h]
      rw [h1]
      have h2 : s.openMenu.toggleMenu = s.openMenu.closeMenu := by
        simp [MobileNavigation.toggleMenu, (hopen s).1]
      rw [h2]
      exact (hclose _).1
    · have h1 : s.toggleMenu = s.closeMenu := by simp [MobileNavigation.toggleMenu, h]
      rw [h1]
      have h2 : s.closeMenu.toggleMenu = s.closeMenu.openMenu := by
        simp [MobileNavigation.toggleMenu, (hclose s).1]
      rw [h2]
      exact (hopen _).1
  · intro s
    simp only [MobileNavigation.openMenu, (classList_idem _ _).1]
  · intro s
    simp only [MobileNavigation.closeMenu, (classList_idem _ _).2]
  · intro op s
    cases op with
    | openMenu =>
      obtain ⟨h1, h2, h3, h4⟩ := hopen s
      exact opened _ h1 h2 h3 h4
    | closeMenu =>
      obtain ⟨h1, h2, h3, h4⟩ := hclose s
      exact closed _ h1 h2 h3 h4
    | toggleMenu =>
      cases h : s.isOpen
      · have e : MenuOp.toggleMenu.apply s = s.openMenu := by
          simp [MenuOp.apply, MobileNavigation.toggleMenu, h]
        rw [e]
        obtain ⟨h1, h2, h3, h4⟩ := hopen s
        exact opened _ h1 h2 h3 h4
      · have e : MenuOp.toggleMenu.apply s = s.closeMenu := by
          simp [MenuOp.apply, MobileNavigation.toggleMenu, h]
        rw [e]
        obtain ⟨h1, h2, h3, h4⟩ := hclose s
        exact closed _ h1 h2 h3 h4

/-- C16 on a concrete document: a toggle from the fresh object opens the menu. -/
theorem menu_toggle_witness :
    (MenuOp.toggleMenu.apply (MobileNavigation.construct ["menu-btn"] ["nav-links"] "auto")).isOpen
      = true :=
  (menu_toggle.2.2.2.2.2 .toggleMenu
    (MobileNavigation.construct ["menu-btn"] ["nav-links"] "auto")).1.mpr
    ⟨by decide, by decide, by decide⟩

/-! ### The particle field -/

/-- `createParticle` appends one particle and touches neither the count, the window nor
the touch flag. -/
theorem createParticle_frame (M : JSMath) (p : ParticlePage) :
    (createParticle M p).particles.length = p.particles.length + 1
    ∧ (createParticle M p).particleCount = p.particleCount
    ∧ (createParticle M p).window = p.window
    ∧ (createParticle M p).isTouch = p.isTouch := by
  simp [createParticle]

/-- Creating `n` particles in a row appends `n` particles. -/
theorem createParticle_iterate (M : JSMath) (n : ℕ) (p : ParticlePage) :
    ((createParticle M)^[n] p).particles.length = p.particles.length + n
    ∧ ((createParticle M)^[n] p).particleCount = p.particleCount
    ∧ ((createParticle M)^[n] p).window = p.window
    ∧ ((createParticle M)^[n] p).isTouch = p.isTouch := by
  induction n generalizing p with
  | zero => simp
  | succ n ih =>
    obtain ⟨a1, a2, a3, a4⟩ := createParticle_frame M p
    obtain ⟨b1, b2, b3, b4⟩ := ih (createParticle M p)
    rw [Function.iterate_succ_apply]
    refine ⟨?_, b2.trans a2, b3.trans a3, b4.trans a4⟩
    rw [b1, a1]
    omega

/-- The `forEach` callback keeps the number of particles: it either leaves the array
alone or removes one element and appends one. -/
theorem animateParticle_frame (M : JSMath) (particle : Particle) (index : Nat)
    (p : ParticlePage) (h : index < p.particles.length) :
    (animateParticle M particle index p).particles.length = p.particles.length
    ∧ (animateParticle M particle index p).particleCount = p.particleCount
    ∧ (animateParticle M particle index p).window = p.window := by
  unfold animateParticle
  simp only
  split
  · refine ⟨?_, ?_, ?_⟩
    · rw [(createParticle_frame M _).1]
      simp only [List.length_eraseIdx, List.length_set]
      rw [if_pos h]
      omega
    · rw [(createParticle_frame M _).2.1]
    · rw [(createParticle_frame M _).2.2.1]
  · simp

/-- The whole `forEach` loop keeps the number of particles. -/
theorem forEachParticle_frame (M : JSMath) (remaining index : Nat) (p : ParticlePage) :
    (forEachParticle M remaining index p).particles.length = p.particles.length
    ∧ (forEachParticle M remaining index p).particleCount = p.particleCount
    ∧ (forEachParticle M remaining index p).window = p.window := by
  induction remaining generalizing index p with
  | zero => simp [forEachParticle]
  | succ n ih =>
    unfold forEachParticle
    cases hget : p.particles[index]? with
    | none => simpa using ih (index + 1) p
    | some particle =>
      have hlt : index < p.particles.length := by
        by_contra hge
        rw [List.getElem?_eq_none (by omega)] at hget
        cases hget
      obtain ⟨a1, a2, a3⟩ := animateParticle_frame M particle index p hlt
      obtain ⟨b1, b2, b3⟩ := ih (index + 1) (animateParticle M particle index p)
      exact ⟨b1.trans a1, b2.trans a2, b3.trans a3⟩

/-- One round of the removal loop drops the last particle, if there is one. -/
theorem popParticle_frame (p : ParticlePage) :
    (popParticle p).particles.length = p.particles.length - 1
    ∧ (popParticle p).particleCount = p.particleCount
    ∧ (popParticle p).window = p.window := by
  unfold popParticle
  cases h : p.particles.getLast? with
  | none =>
    have : p.particles = [] := by simpa using h
    simp [this]
  | some particle => simp

/-- `n` rounds of the removal loop drop the last `n` particles, as far as there are any. -/
theorem popParticle_iterate (n : ℕ) (p : ParticlePage) :
    (popParticle^[n] p).particles.length = p.particles.length - n
    ∧ (popParticle^[n] p).particleCount = p.particleCount
    ∧ (popParticle^[n] p).window = p.window := by
  induction n generalizing p with
  | zero => simp
  | succ n ih =>
    obtain ⟨a1, a2, a3⟩ := popParticle_frame p
    obtain ⟨b1, b2, b3⟩ := ih (popParticle p)
    rw [Function.iterate_succ_apply]
    refine ⟨?_, b2.trans a2, b3.trans a3⟩
    rw [b1, a1]
    omega

/-- `animate` keeps the number of particles and the count field. -/
theorem animate_frame (M : JSMath) (p : ParticlePage) :
    (ResponsiveParticleSystem.animate M p).particles.length = p.particles.length
    ∧ (ResponsiveParticleSystem.animate M p).particleCount = p.particleCount
    ∧ (ResponsiveParticleSystem.animate M p).window = p.window := by
  obtain ⟨a1, a2, a3⟩ := forEachParticle_frame M p.particles.length 0 p
  exact ⟨a1, a2, a3⟩

/-- `updateParticleCount` brings the array to the new count when it held the old one. -/
theorem updateParticleCount_frame (M : JSMath) (newCount : Int) (p : ParticlePage)
    (h0 : 0 ≤ newCount) (hinv : (p.particles.length : Int) = p.particleCount) :
    ((updateParticleCount M newCount p).particles.length : Int) = newCount
    ∧ (updateParticleCount M newCount p).particleCount = newCount
    ∧ (updateParticleCount M newCount p).window = p.window := by
  unfold updateParticleCount
  simp only
  split
  · rename_i hpos
    obtain ⟨a1, -, a3, -⟩ := createParticle_iterate M (newCount - p.particleCount).toNat p
    refine ⟨?_, trivial, a3⟩
    rw [a1]
    push_cast
    rw [Int.toNat_of_nonneg (le_of_lt hpos)]
    omega
  · split
    · rename_i hneg
      obtain ⟨a1, -, a3⟩ := popParticle_iterate (newCount - p.particleCount).natAbs p
      refine ⟨?_, trivial, a3⟩
      rw [a1]
      omega
    · refine ⟨?_, trivial, rfl⟩
      omega

/-- C18: on a non-touch device `particles.length = particleCount` holds after the
constructor, with `particleCount = getParticleCount()` one of 15, 25, 35, 50 by window
width; every `animate` step preserves it; and so does every
`updateParticleCount(newCount)` with `newCount >= 0`, which leaves
`particleCount = newCount`; hence also the `resize` listener. -/
theorem particle_count_invariant :
    (∀ window : Window,
      getParticleCount window =
        (if window.innerWidth < 480 then 15 else if window.innerWidth < 768 then 25
          else if window.innerWidth < 1024 then 35 else 50)
      ∧ (getParticleCount window = 15 ∨ getParticleCount window = 25
          ∨ getParticleCount window = 35 ∨ getParticleCount window = 50))
    ∧ (∀ (M : JSMath) (window : Window),
        ((ResponsiveParticleSystem.construct M window false).particles.length : Int)
          = (ResponsiveParticleSystem.construct M window false).particleCount
        ∧ (ResponsiveParticleSystem.construct M window false).particleCount
          = getParticleCount window)
    ∧ (∀ (M : JSMath) (p : ParticlePage),
        (p.particles.length : Int) = p.particleCount →
        ((ResponsiveParticleSystem.animate M p).particles.length : Int)
          = (ResponsiveParticleSystem.animate M p).particleCount)
    ∧ (∀ (M : JSMath) (newCount : Int) (p : ParticlePage),
        0 ≤ newCount → (p.particles.length : Int) = p.particleCount →
        ((updateParticleCount M newCount p).particles.length : Int)
          = (updateParticleCount M newCount p).particleCount
        ∧ (updateParticleCount M newCount p).particleCount = newCount)
    ∧ (∀ (M : JSMath) (p : ParticlePage),
        (p.particles.length : Int) = p.particleCount →
        ((onResizeParticles M p).particles.length : Int)
          = (onResizeParticles M p).particleCount
        ∧ (onResizeParticles M p).particleCount = getParticleCount p.window) := by
  have hcount : ∀ window : Window,
      getParticleCount window = 15 ∨ getParticleCount window = 25
        ∨ getParticleCount window = 35 ∨ getParticleCount window = 50 := by
    intro window
    unfold getParticleCount
    simp only
    split
    · exact Or.inl rfl
    · split
      · exact Or.inr (Or.inl rfl)
      · split
        · exact Or.inr (Or.inr (Or.inl rfl))
        · exact Or.inr (Or.inr (Or.inr rfl))
  have hnonneg : ∀ window : Window, 0 ≤ getParticleCount window := by
    intro window
    rcases hcount window with h | h | h | h <;> rw [h] <;> norm_num
  refine ⟨fun window => ⟨rfl, hcount window⟩, ?_, ?_, ?_, ?_⟩
  · intro M window
    unfold ResponsiveParticleSystem.construct ResponsiveParticleSystem.init
    simp only [Bool.false_eq_true, false_and, if_false]
    obtain ⟨a1, a2, -⟩ := animate_frame M
      ((createParticle M)^[(getParticleCount window).toNat]
        { window := window, container := [], particles := [],
          particleCount := getParticleCount window, isTouch := false,
          draws := 0, nextId := 0, frames := 0, listeners := 0 })
    obtain ⟨b1, b2, -, -⟩ := createParticle_iterate M (getParticleCount window).toNat
        { window := window, container := [], particles := [],
          particleCount := getParticleCount window, isTouch := false,
          draws := 0, nextId := 0, frames := 0, listeners := 0 }
    simp only at b1 b2
    refine ⟨?_, ?_⟩
    · rw [a1, a2, b1, b2]
      simp only [List.length_nil, Nat.zero_add]
      exact Int.toNat_of_nonneg (hnonneg window)
    · rw [a2, b2]
  · intro M p hinv
    obtain ⟨a1, a2, -⟩ := animate_frame M p
    rw [a1, a2, hinv]
  · intro M newCount p h0 hinv
    obtain ⟨a1, a2, -⟩ := updateParticleCount_frame M newCount p h0 hinv
    exact ⟨a1.trans a2.symm, a2⟩
  · intro M p hinv
    unfold onResizeParticles
    simp only
    split
    · obtain ⟨a1, a2, -⟩ :=
        updateParticleCount_frame M (getParticleCount p.window) p (hnonneg p.window) hinv
      exact ⟨a1.trans a2.symm, a2⟩
    · rename_i heq
      have : getParticleCount p.window = p.particleCount := by
        by_contra hne
        exact heq hne
      exact ⟨hinv, this.symm⟩

/-- C18 on an 800 x 600 non-touch page: 35 particles after the constructor, and 15 after
`updateParticleCount(15)`. -/
theorem particle_count_invariant_witness :
    (ResponsiveParticleSystem.construct sampleMath ⟨800, 600⟩ false).particleCount = 35
    ∧ ((updateParticleCount sampleMath 15
          (ResponsiveParticleSystem.construct sampleMath ⟨800, 600⟩ false)).particles.length : Int)
        = (updateParticleCount sampleMath 15
          (ResponsiveParticleSystem.construct sampleMath ⟨800, 600⟩ false)).particleCount
    ∧ (updateParticleCount sampleMath 15
          (ResponsiveParticleSystem.construct sampleMath ⟨800, 600⟩ false)).particleCount = 15 :=
  have h := particle_count_invariant
  ⟨(h.2.1 sampleMath ⟨800, 600⟩).2.trans (by decide),
   (h.2.2.2.1 sampleMath 15 _ (by decide) (h.2.1 sampleMath ⟨800, 600⟩).1).1,
   (h.2.2.2.1 sampleMath 15 _ (by decide) (h.2.1 sampleMath ⟨800, 600⟩).1).2⟩

/-- A callback at a position other than 0 leaves the first particle of the array as it
is. -/
theorem animateParticle_head (M : JSMath) (particle : Particle) (index : Nat)
    (p : ParticlePage) (b : Particle) (tl : List Particle) (hp : p.particles = b :: tl) :
    ∃ tl' : List Particle,
      (animateParticle M particle (index + 1) p).particles = b :: tl' := by
  unfold animateParticle
  simp only [hp, List.set_cons_succ, List.eraseIdx_cons_succ]
  split
  · simp [createParticle]
  · simp

/-- Once the loop is past position 0, the first particle of the array stays as it is. -/
theorem forEachParticle_head (M : JSMath) (remaining index : Nat) (p : ParticlePage)
    (b : Particle) (tl : List Particle) (hp : p.particles = b :: tl) :
    ∃ tl' : List Particle,
      (forEachParticle M remaining (index + 1) p).particles = b :: tl' := by
  induction remaining generalizing index p tl with
  | zero => exact ⟨tl, by simpa [forEachParticle] using hp⟩
  | succ n ih =>
    unfold forEachParticle
    cases hget : p.particles[index + 1]? with
    | none => exact ih (index + 1) p tl hp
    | some particle =>
      obtain ⟨tl1, h1⟩ := animateParticle_head M particle index p b tl hp
      exact ih (index + 1) _ tl1 h1

/-- Whenever the first particle of the array dies in an `animate` step (its life is at
most 0.016), the second one is skipped by that step: it ends up first in the array exactly
as it was, not advanced, not aged and not removed, whatever its own state and however
many particles follow. -/
theorem animate_skips_second (M : JSMath) (p : ParticlePage) (a b : Particle)
    (rest : List Particle) (hp : p.particles = a :: b :: rest) (ha : a.life ≤ 0.016) :
    ∃ tl : List Particle, (ResponsiveParticleSystem.animate M p).particles = b :: tl := by
  have hdead : a.life - 0.016 ≤ 0 := by linarith
  unfold ResponsiveParticleSystem.animate
  simp only [hp, List.length_cons]
  unfold forEachParticle
  simp only [hp, List.getElem?_cons_zero]
  have h1 : ∃ tl1 : List Particle, (animateParticle M a 0 p).particles = b :: tl1 := by
    simp [animateParticle, hp, hdead, createParticle]
  obtain ⟨tl1, h1⟩ := h1
  exact forEachParticle_head M _ 0 _ b tl1 h1

/-- C15, the code at two dying particles in a row: `animate` removes the first and
appends its replacement, which shifts the second to position 0; the loop goes on at
position 1, so the second particle, although its life is at most 0.016, is neither
advanced nor aged nor removed in this step, whatever `Math.random` returns. The same
holds for `ParticleSystem.animate`. -/
theorem animate_skips_after_removal (M : JSMath) :
    (dyingParticle 1).life ≤ 0.016
    ∧ twoDyingPage.particles = [dyingParticle 0, dyingParticle 1]
    ∧ (∃ replacement : Particle,
        (ResponsiveParticleSystem.animate M twoDyingPage).particles
          = [dyingParticle 1, replacement])
    ∧ (∃ replacement : Particle,
        (ParticleSystem.animate M twoDyingPage).particles = [dyingParticle 1, replacement])
    ∧ (ResponsiveParticleSystem.animate sampleMath twoDyingPage).particles
        = [dyingParticle 1,
           { id := 2, left := 803 / 2, top := 300, velocity := ⟨3 / 2, 0⟩, life := 871 / 250,
             maxLife := 7 / 2, opacity := some (2613 / 4375), tween := 1 / 2 }] := by
  have hloop : ∀ M : JSMath, ∃ replacement : Particle,
      (forEachParticle M 2 0 twoDyingPage).particles = [dyingParticle 1, replacement] := by
    intro M
    have hdead : (0.01 : ℚ) - 0.016 ≤ 0 := by norm_num
    simp only [forEachParticle, twoDyingPage, dyingParticle, animateParticle, createParticle,
      List.getElem?_cons_zero, List.set_cons_zero, hdead, true_or, if_true,
      List.eraseIdx_cons_zero, List.cons_append, List.nil_append, Nat.zero_add,
      List.getElem?_cons_succ, List.set_cons_succ, List.eraseIdx_cons_succ]
    split <;> exact ⟨_, rfl⟩
  refine ⟨by norm_num [dyingParticle], rfl, hloop M, hloop M, ?_⟩
  have hdead : (0.01 : ℚ) - 0.016 ≤ 0 := by norm_num
  simp only [ResponsiveParticleSystem.animate, twoDyingPage, List.length_cons, List.length_nil,
    forEachParticle, dyingParticle, animateParticle, createParticle, sampleMath,
    List.getElem?_cons_zero, List.set_cons_zero, hdead, true_or, if_true,
    List.eraseIdx_cons_zero, List.cons_append, List.nil_append, Nat.zero_add,
    List.getElem?_cons_succ, List.set_cons_succ, List.eraseIdx_cons_succ]
  norm_num

/-- C17 as stated fails at `n = 0`: after the constructor and one pointer move to
`(400, 300)` on an 800 x 600 page, and before any further `render`, the smoothed position
is `(0, 0)` and the target `(400, 300)`, but the stored velocity is still `(0, 0)` and not
`(t - s0) * 0.9 ^ 0 = (400, 300)`. -/
theorem velocity_stale_before_render :
    (render^[0] (run (construct samplePlatform ⟨800, 600⟩) [.mousemove ⟨400, 300⟩])).effect.mouse
      = some ⟨0, 0⟩
    ∧ (render^[0] (run (construct samplePlatform ⟨800, 600⟩)
        [.mousemove ⟨400, 300⟩])).effect.targetMouse = some ⟨400, 300⟩
    ∧ (render^[0] (run (construct samplePlatform ⟨800, 600⟩)
        [.mousemove ⟨400, 300⟩])).effect.velocity = some ⟨0, 0⟩
    ∧ ¬ (render^[0] (run (construct samplePlatform ⟨800, 600⟩)
        [.mousemove ⟨400, 300⟩])).effect.velocity
          = some ⟨(400 - 0) * 0.9 ^ 0, (300 - 0) * 0.9 ^ 0⟩ := by
  have hp : run (construct samplePlatform ⟨800, 600⟩) [.mousemove ⟨400, 300⟩]
      = step (init ⟨800, 600⟩ ⟨300, 150⟩ sampleContext ⟨0, 0⟩ ⟨0, 0⟩ ⟨0, 0⟩ 0)
          (.mousemove ⟨400, 300⟩) := rfl
  have hf : List.filter (fun l => decide (l = Listener.mousemove))
      [Listener.resize, Listener.mousemove] = [Listener.mousemove] := by decide
  simp only [Function.iterate_zero, id_eq, hp]
  norm_num [step, dispatch, hf, onMouseMove, init, setupCanvas, resize, createShaders,
    createProgram, createShader, createGeometry, setupUniforms, bindEvents, render,
    GLContext.create, GLContext.call, sampleContext, lerp,
    WaterDistortionEffect.mouse, WaterDistortionEffect.targetMouse,
    WaterDistortionEffect.velocity]

end RooTrails
